import Mathlib

/-!
Package grpcerr: errors that carry a gRPC status code.

A shallow embedding of `grpcerr.go` (package `grpcerr`): the `Error` struct, `New`, `NewMsg`,
the methods `Error`, `GRPCStatus`, `Unwrap`, and `Errorf`.

The package leans on three collaborators that are not part of it:

* `fmt.Errorf` (the formatting engine).  The printer itself is a parameter (`Host.doPrintf`); what
  `fmt.Errorf` does with the printer state is modelled as in the Go 1.13 - 1.19 standard library.
* `status.New`, `(*Status).WithDetails`, `(*Status).Details`, `status.FromError` of
  `google.golang.org/grpc/status`.  `FromError` is the one the test file pins down: a plain
  `fmt.Errorf` wrap of a coded error is *not* recognised (`grpcerr_test.go`, lines 40-41), i.e.
  recognition is the direct `GRPCStatus()` interface check on the value itself.
* the `Any` codec behind details (`ptypes.MarshalAny` / `ptypes.UnmarshalAny`), a parameter too.

A run-time panic (a method call through a nil interface) is modelled by `none`.
-/

namespace grpcerr

/-! ## Data model -/

/-- The type `codes.Code`, a `uint32` tag; the package only stores and compares it. -/
abbrev Code := Nat

/-- Code `codes.OK`. -/
def codes.OK : Code := 0

/-- Code `codes.Unknown`. -/
def codes.Unknown : Code := 2

/-- Code `codes.InvalidArgument`. -/
def codes.InvalidArgument : Code := 3

/-- Code `codes.NotFound`. -/
def codes.NotFound : Code := 5

/-- A structured detail object (`proto.Message`): its message type and payload. -/
structure ProtoMessage where
  typeName : String
  payload : List Nat
deriving DecidableEq

/-- An encoded detail as stored in a status (`anypb.Any`). -/
structure AnyPB where
  typeUrl : String
  value : List Nat
deriving DecidableEq

/-- A non-nil `*status.Status`, seen through its proto: code, message, encoded details. -/
structure Status where
  code : Code
  message : String
  details : List AnyPB
deriving DecidableEq

/-- Values of the Go interface `error`.
`nil` is the nil interface value; `errorString` is what `errors.New` returns; `wrapError` is what
`fmt.Errorf` returns when a `%w` verb captured an error; `grpcerrError Code Err Details` is
`&Error{Code, Err, Details}` of this package; `statusError` is the error form of a status
(`status.Error`, `(*Status).Err`). -/
inductive GoError where
  | nil
  | errorString (s : String)
  | wrapError (msg : String) (err : GoError)
  | grpcerrError (Code : Code) (Err : GoError) (Details : List ProtoMessage)
  | statusError (s : Status)
deriving DecidableEq

/-- An operand of a formatting call (`interface{}`): an error, a string or an integer. -/
inductive Arg where
  | err (e : GoError)
  | str (s : String)
  | int (n : Int)
deriving DecidableEq

/-- An entry of `(*Status).Details()`: the decoded message, or the decoding error in its place. -/
inductive Detail where
  | err (e : GoError)
  | msg (m : ProtoMessage)
deriving DecidableEq

/-- What `fmt.Errorf` reads off the printer after `doPrintf`: the rendered buffer and the error
captured by the `%w` verb (`nil` when there is none). -/
structure Printed where
  buf : String
  wrappedErr : GoError
deriving DecidableEq

/-- The collaborators outside the package: the printer of `fmt` and the `Any` codec.
`MarshalAny` yields `none` when encoding fails; `UnmarshalAny` yields the decoding error. -/
structure Host where
  doPrintf : String → List Arg → Printed
  MarshalAny : ProtoMessage → Option AnyPB
  UnmarshalAny : AnyPB → Except GoError ProtoMessage

/-! ## The Go standard library and grpc/status side -/

/-- Name of a code as `codes.Code.String` prints it. -/
def Code.name (c : Code) : String :=
  match c with
  | 0 => "OK"
  | 1 => "Canceled"
  | 2 => "Unknown"
  | 3 => "InvalidArgument"
  | 4 => "DeadlineExceeded"
  | 5 => "NotFound"
  | 6 => "AlreadyExists"
  | 7 => "PermissionDenied"
  | 8 => "ResourceExhausted"
  | 9 => "FailedPrecondition"
  | 10 => "Aborted"
  | 11 => "OutOfRange"
  | 12 => "Unimplemented"
  | 13 => "Internal"
  | 14 => "Unavailable"
  | 15 => "DataLoss"
  | 16 => "Unauthenticated"
  | n => "Code(" ++ toString n ++ ")"

/-- Text of a status used as an error: `rpc error: code = %s desc = %s`. -/
def Status.text (s : Status) : String :=
  "rpc error: code = " ++ Code.name s.code ++ " desc = " ++ s.message

/-- The method `Error()` of an error value, by dynamic type.  For `*grpcerr.Error` it is the
source method `func (e *Error) Error() string { return e.Err.Error() }`.
`none` is the panic of calling through a nil interface. -/
def GoError.Error : GoError → Option String
  | .nil => none
  | .errorString s => some s
  | .wrapError msg _ => some msg
  | .grpcerrError _ Err _ => Err.Error
  | .statusError s => some s.text

/-- The type assertion `err.(interface{ Unwrap() error })` followed by the call: `none` when the
dynamic type has no such method.  For `*grpcerr.Error` it is the source method
`func (e *Error) Unwrap() error { return e.Err }`. -/
def GoError.Unwrap : GoError → Option GoError
  | .wrapError _ err => some err
  | .grpcerrError _ Err _ => some Err
  | _ => none

/-- Constructor `status.New(c, msg)`. -/
def status.New (c : Code) (msg : String) : Status :=
  { code := c, message := msg, details := [] }

/-- Method `(*Status).Code()`, which answers `OK` on a nil receiver. -/
def Status.Code : Option Status → Code
  | none => codes.OK
  | some s => s.code

/-- Method `(*Status).Message()`, empty on a nil receiver. -/
def Status.Message : Option Status → String
  | none => ""
  | some s => s.message

/-- The loop of `WithDetails`: encode each detail and append it; stop at the first failure. -/
def Status.appendDetails (H : Host) : List AnyPB → List ProtoMessage → Option (List AnyPB)
  | p, [] => some p
  | p, detail :: rest =>
    match H.MarshalAny detail with
    | none => none
    | some any => Status.appendDetails H (p ++ [any]) rest

/-- Method `(*Status).WithDetails(details...)`: refused (`none`) for code `OK` and when a detail
cannot be encoded; otherwise a copy of the status with the encoded details appended. -/
def Status.WithDetails (H : Host) (s : Status) (details : List ProtoMessage) : Option Status :=
  if s.code = codes.OK then none
  else
    match Status.appendDetails H s.details details with
    | none => none
    | some p => some { s with details := p }

/-- Method `(*Status).Details()`: every stored entry decoded, the decoding error standing in for
an entry that cannot be decoded; nothing on a nil receiver. -/
def Status.Details (H : Host) : Option Status → List Detail
  | none => []
  | some s =>
    s.details.map fun any =>
      match H.UnmarshalAny any with
      | .error e => Detail.err e
      | .ok m => Detail.msg m

/-- Function `fmt.Errorf(format, a...)`: an `errorString` when no `%w` verb captured an error, a
`wrapError` around the captured error otherwise. -/
def fmt.Errorf (H : Host) (format : String) (a : List Arg) : GoError :=
  let p := H.doPrintf format a
  match p.wrappedErr with
  | .nil => .errorString p.buf
  | w => .wrapError p.buf w

/-! ## Package grpcerr -/

/-- Source: `func New(code codes.Code, err error) *Error`. -/
def New (code : Code) (err : GoError) : GoError :=
  .grpcerrError code err []

/-- Source: `func NewMsg(code codes.Code, msg string) *Error`. -/
def NewMsg (code : Code) (msg : String) : GoError :=
  .grpcerrError code (.errorString msg) []

/-- Source: `func (e *Error) GRPCStatus() *status.Status`, on the receiver `&Error{Code, Err,
Details}`.  `none` is the panic of `e.Err.Error()`. -/
def GRPCStatus (H : Host) (Code : Code) (Err : GoError) (Details : List ProtoMessage) :
    Option Status :=
  match Err.Error with
  | none => none
  | some text =>
    let st := status.New Code text
    match st.WithDetails H Details with
    | none => some st
    | some detailed => some detailed

/-- Function `status.FromError(err)`: `(nil, true)` for a nil error; the value's own
`GRPCStatus()` with `true` when its dynamic type has that method; otherwise
`(status.New(codes.Unknown, err.Error()), false)`.  `none` is a panic. -/
def status.FromError (H : Host) : GoError → Option (Option Status × Bool)
  | .nil => some (none, true)
  | .grpcerrError Code Err Details =>
    match GRPCStatus H Code Err Details with
    | none => none
    | some st => some (some st, true)
  | .statusError s => some (some s, true)
  | .errorString s => some (some (status.New codes.Unknown s), false)
  | .wrapError msg _ => some (some (status.New codes.Unknown msg), false)

/-- One round of the loop over `status.Details()` in `Errorf`: an entry that is an error is
skipped, an entry that is a message is appended. -/
def Errorf.step (details : List ProtoMessage) (detail : Detail) : List ProtoMessage :=
  match detail with
  | .err _ => details
  | .msg m => details ++ [m]

/-- Source: `func Errorf(msg string, args ...interface{}) error`.  `none` is a panic raised while
the status of the unwrapped value is computed. -/
def Errorf (H : Host) (msg : String) (args : List Arg) : Option GoError :=
  let err := fmt.Errorf H msg args
  match err.Unwrap with
  | none => some (.grpcerrError codes.Unknown err [])
  | some wrapped =>
    match status.FromError H wrapped with
    | none => none
    | some (_, false) => some (.grpcerrError codes.Unknown err [])
    | some (st, true) =>
      some (.grpcerrError (Status.Code st) err ((Status.Details H st).foldl Errorf.step []))

/-- The code a consumer extracts from an error: `status.Code(err)`, the code of the status that
`status.FromError` yields. -/
def extractCode (H : Host) (err : GoError) : Option Code :=
  match status.FromError H err with
  | none => none
  | some (st, _) => some (Status.Code st)

/-- A coded error under layers of plain wrapping: `plainWrap H [t1, ..., tn] x` is
`fmt.Errorf(t1, fmt.Errorf(t2, ... fmt.Errorf(tn, x)))`, the templates being of the form
`"...%w"`. -/
def plainWrap (H : Host) : List String → GoError → GoError
  | [], x => x
  | t :: ts, x => fmt.Errorf H t [Arg.err (plainWrap H ts x)]

/-- Whether a status-bearing error (a `*grpcerr.Error` or a status error) occurs anywhere in the
`Unwrap` chain of an error. -/
def GoError.hasCoded : GoError → Bool
  | .nil => false
  | .errorString _ => false
  | .wrapError _ err => err.hasCoded
  | .grpcerrError _ _ _ => true
  | .statusError _ => true

/-- Whether an entry of a detail list is an error value (the case `error` of the type switch). -/
def Detail.isError : Detail → Bool
  | .err _ => true
  | .msg _ => false

/-- Whether an entry of a detail list is a structured detail object (the case `proto.Message`). -/
def Detail.isMessage : Detail → Bool
  | .err _ => false
  | .msg _ => true

/-- Function `errors.Unwrap(err)`: the result of the `Unwrap` method, `nil` when the dynamic
type has none. -/
def errors.Unwrap (err : GoError) : GoError :=
  match err.Unwrap with
  | some u => u
  | none => GoError.nil

/-- An error value together with the addresses of the objects along its `Unwrap` chain, its own
address first (none for `nil`).  Errors are never mutated, so an address stands for an object;
every error type of the model is a pointer type, so two non-nil interface values are `==`
exactly when they hold the same address. -/
structure Located where
  val : GoError
  addrs : List Nat
deriving DecidableEq

/-- The comparison `err == target` of Go on two error interface values. -/
def Located.same (err target : Located) : Bool :=
  if err.val = GoError.nil ∨ target.val = GoError.nil then
    decide (err.val = GoError.nil ∧ target.val = GoError.nil)
  else
    match err.addrs, target.addrs with
    | p :: _, q :: _ => decide (p = q)
    | _, _ => false

/-- Function `errors.Unwrap(err)` on a located value: the result of the `Unwrap` method of its
value, found at the next address of the chain. -/
def Located.Unwrap (err : Located) : Located :=
  { val := errors.Unwrap err.val, addrs := err.addrs.tail }

/-- The loop of `errors.Is` for a non-nil target: `if err == target { return true }`, then
`if err = Unwrap(err); err == nil { return false }`.  No error type of the model has an `Is`
method.  The loop of Go is unbounded: `none` says that `fuel` rounds were not enough. -/
def errors.Is.loop (target : Located) : Nat → Located → Option Bool
  | 0, _ => none
  | fuel + 1, err =>
    if err.same target then some true
    else if (err.Unwrap).val = GoError.nil then some false
    else errors.Is.loop target fuel err.Unwrap

/-- Function `errors.Is(err, target)`: `err == target` when the target is nil, the loop
otherwise. -/
def errors.Is (fuel : Nat) (err target : Located) : Option Bool :=
  if target.val = GoError.nil then some (err.same target) else errors.Is.loop target fuel err

/-- Function `New(code, err)` with the new `Error` allocated at address `a`. -/
def Located.New (a : Nat) (code : Code) (err : Located) : Located :=
  { val := grpcerr.New code err.val, addrs := a :: err.addrs }

/-- One round of wrapping with a template: the plain `fmt.Errorf(t, prev)` of the host language
or `Errorf(t, prev)` of this package. -/
inductive Wrap where
  | plain (template : String)
  | coded (template : String)
deriving DecidableEq

/-- The template of a round of wrapping. -/
def Wrap.template : Wrap → String
  | .plain t => t
  | .coded t => t

/-- Apply one round of wrapping to `prev`. -/
def Wrap.apply (H : Host) (k : Wrap) (prev : GoError) : Option GoError :=
  match k with
  | .plain t => some (fmt.Errorf H t [Arg.err prev])
  | .coded t => Errorf H t [Arg.err prev]

/-- Successive rounds of wrapping, the outermost first: `wraps H [k1, ..., kn] x` applies `kn` to
`x`, then `k(n-1)` to the result, and so on; `none` if a round panics. -/
def wraps (H : Host) : List Wrap → GoError → Option GoError
  | [], x => some x
  | k :: ks, x =>
    match wraps H ks x with
    | none => none
    | some prev => k.apply H prev

/-- Addresses of the chain below the formatted error of a round applied to `prev`: when the
formatted error has an `Unwrap`, what it wraps is its operand `prev`. -/
def Located.below (formatted : GoError) (prev : Located) : List Nat :=
  match formatted.Unwrap with
  | some _ => prev.addrs
  | none => []

/-- One round of wrapping with allocation, `a` being the next free address: a plain round
allocates the formatted error at `a`; a round of `Errorf` allocates the formatted error at `a`
and the `Error` around it at `a + 1`.  The result comes with the next free address. -/
def Wrap.applyAt (H : Host) (k : Wrap) (a : Nat) (prev : Located) : Option (Located × Nat) :=
  match k.apply H prev.val with
  | none => none
  | some r =>
    match k with
    | .plain t =>
      some ({ val := r,
              addrs := a :: Located.below (fmt.Errorf H t [Arg.err prev.val]) prev }, a + 1)
    | .coded t =>
      some ({ val := r,
              addrs := (a + 1) :: a :: Located.below (fmt.Errorf H t [Arg.err prev.val]) prev },
            a + 2)

/-- Successive rounds of wrapping with allocation, the outermost first, from the free address
`a`. -/
def wrapsAt (H : Host) : List Wrap → Nat → Located → Option (Located × Nat)
  | [], a, x => some (x, a)
  | k :: ks, a, x =>
    match wrapsAt H ks a x with
    | none => none
    | some (prev, next) => k.applyAt H next prev

/-! ## A concrete host, for evaluating the definitions on examples -/

/-- What `fmt` prints in place of an operand whose `Error` method panics. -/
def panicText (verb : Char) : String :=
  "%!" ++ String.singleton verb ++
    "(PANIC=Error method: runtime error: invalid memory address or nil pointer dereference)"

/-- Text that `fmt` prints for an operand under the verb `%v` or `%s`. -/
def verbText (verb : Char) : Arg → String
  | .err .nil => if verb = 'v' then "<nil>" else "%!" ++ String.singleton verb ++ "(<nil>)"
  | .err e =>
    match e.Error with
    | some s => s
    | none => panicText verb
  | .str s => s
  | .int n =>
    if verb = 'v' then toString n
    else "%!" ++ String.singleton verb ++ "(int=" ++ toString n ++ ")"

/-- A printer for the plain fragment of `fmt` templates: literal text, `%%`, and the verbs `%v`,
`%s`, `%w` without flags, with as many operands as verbs.  The state is the buffer, the captured
error `w` and the flag `wrapErrs`, as in `fmt`: the first `%w` given a non-nil error captures it;
a `%w` given a string or an integer is a bad verb and switches wrapping off; a nil operand leaves
the state alone.  `none` outside the fragment (any other verb, a `%w` after one that captured or
failed, missing or extra operands). -/
def simplePrintf : List Char → List Arg → List Char → GoError → Bool → Option Printed
  | [], [], buf, w, _ => some { buf := String.mk buf, wrappedErr := w }
  | [], _ :: _, _, _, _ => none
  | '%' :: '%' :: cs, a, buf, w, wrapErrs => simplePrintf cs a (buf ++ ['%']) w wrapErrs
  | '%' :: 'w' :: cs, Arg.err GoError.nil :: a, buf, w, wrapErrs =>
    simplePrintf cs a (buf ++ "%!w(<nil>)".data) w wrapErrs
  | '%' :: 'w' :: cs, Arg.err e :: a, buf, GoError.nil, true =>
    simplePrintf cs a (buf ++ (verbText 'v' (Arg.err e)).data) e true
  | '%' :: 'w' :: cs, Arg.str s :: a, buf, _, _ =>
    simplePrintf cs a (buf ++ ("%!w(string=" ++ s ++ ")").data) GoError.nil false
  | '%' :: 'w' :: cs, Arg.int n :: a, buf, _, _ =>
    simplePrintf cs a (buf ++ ("%!w(int=" ++ toString n ++ ")").data) GoError.nil false
  | '%' :: 'v' :: cs, x :: a, buf, w, wrapErrs =>
    simplePrintf cs a (buf ++ (verbText 'v' x).data) w wrapErrs
  | '%' :: 's' :: cs, x :: a, buf, w, wrapErrs =>
    simplePrintf cs a (buf ++ (verbText 's' x).data) w wrapErrs
  | '%' :: _, _, _, _, _ => none
  | c :: cs, a, buf, w, wrapErrs => simplePrintf cs a (buf ++ [c]) w wrapErrs

/-- A sample host: the printer `simplePrintf` (a template outside its fragment is rendered as
itself, with nothing wrapped) and a codec that keeps type name and payload, refuses to encode a
message without a type name and fails to decode an entry without a type URL. -/
def exampleHost : Host where
  doPrintf format a :=
    match simplePrintf format.data a [] GoError.nil true with
    | some p => p
    | none => { buf := format, wrappedErr := GoError.nil }
  MarshalAny m :=
    if m.typeName = "" then none else some { typeUrl := m.typeName, value := m.payload }
  UnmarshalAny any :=
    if any.typeUrl = "" then Except.error (GoError.errorString "any: message type is unknown")
    else Except.ok { typeName := any.typeUrl, payload := any.value }

/-- A sample status with three stored details, the second of which has no type URL and so
cannot be decoded by the codec of `exampleHost`. -/
def sampleStatus : Status :=
  { code := codes.NotFound
    message := "gone"
    details := [{ typeUrl := "A", value := [1] }, { typeUrl := "", value := [] },
      { typeUrl := "B", value := [2] }] }

/-- A second sample host, with the printer of `exampleHost` and a codec that behaves as the
`Any` codec does on a message type that is not linked into the registry, here a message without
a type name: encoding succeeds, decoding fails. -/
def unlinkedHost : Host where
  doPrintf := exampleHost.doPrintf
  MarshalAny m := some { typeUrl := m.typeName, value := m.payload }
  UnmarshalAny := exampleHost.UnmarshalAny

end grpcerr

/-! ## Shared lemmas -/

namespace grpcerr

theorem fmtErrorf_plain (H : Host) (format : String) (a : List Arg)
    (hw : (H.doPrintf format a).wrappedErr = GoError.nil) :
    fmt.Errorf H format a = GoError.errorString (H.doPrintf format a).buf := by
  simp [fmt.Errorf, hw]

theorem fmtErrorf_wrapped (H : Host) (format : String) (a : List Arg) (w : GoError)
    (hw : (H.doPrintf format a).wrappedErr = w) (hne : w ≠ GoError.nil) :
    fmt.Errorf H format a = GoError.wrapError (H.doPrintf format a).buf w := by
  unfold fmt.Errorf
  cases w <;> simp_all

theorem fmtErrorf_shape (H : Host) (format : String) (a : List Arg) :
    fmt.Errorf H format a = GoError.errorString (H.doPrintf format a).buf ∨
      ∃ w, w ≠ GoError.nil ∧ (H.doPrintf format a).wrappedErr = w ∧
        fmt.Errorf H format a = GoError.wrapError (H.doPrintf format a).buf w := by
  by_cases h : (H.doPrintf format a).wrappedErr = GoError.nil
  · exact Or.inl (fmtErrorf_plain H format a h)
  · exact Or.inr ⟨_, h, rfl, fmtErrorf_wrapped H format a _ rfl h⟩

theorem fmtErrorf_text (H : Host) (format : String) (a : List Arg) :
    (fmt.Errorf H format a).Error = some (H.doPrintf format a).buf := by
  rcases fmtErrorf_shape H format a with h | ⟨w, _, _, h⟩ <;> simp [h, GoError.Error]

theorem FromError_fmtErrorf (H : Host) (format : String) (a : List Arg) :
    status.FromError H (fmt.Errorf H format a) =
      some (some (status.New codes.Unknown (H.doPrintf format a).buf), false) := by
  rcases fmtErrorf_shape H format a with h | ⟨w, _, _, h⟩ <;> simp [h, status.FromError]

theorem WithDetails_code_message (H : Host) (s t : Status) (ds : List ProtoMessage)
    (h : s.WithDetails H ds = some t) : t.code = s.code ∧ t.message = s.message := by
  unfold Status.WithDetails at h
  split at h
  · simp at h
  · split at h
    · simp at h
    · simp only [Option.some.injEq] at h
      subst h
      exact ⟨rfl, rfl⟩

theorem GRPCStatus_some (H : Host) (c : Code) (e : GoError) (ds : List ProtoMessage) (m : String)
    (he : e.Error = some m) :
    ∃ st, GRPCStatus H c e ds = some st ∧ st.code = c ∧ st.message = m := by
  unfold GRPCStatus
  simp only [he]
  cases hwd : (status.New c m).WithDetails H ds with
  | none => exact ⟨_, rfl, rfl, rfl⟩
  | some t =>
    obtain ⟨h1, h2⟩ := WithDetails_code_message H _ _ _ hwd
    exact ⟨t, rfl, h1, h2⟩

theorem GRPCStatus_no_details (H : Host) (c : Code) (e : GoError) (m : String)
    (he : e.Error = some m) : GRPCStatus H c e [] = some (status.New c m) := by
  unfold GRPCStatus
  simp only [he]
  by_cases hc : c = codes.OK <;> simp [Status.WithDetails, status.New, Status.appendDetails, hc]

theorem Errorf_of_unwrap_none (H : Host) (msg : String) (args : List Arg)
    (hu : (fmt.Errorf H msg args).Unwrap = none) :
    Errorf H msg args = some (GoError.grpcerrError codes.Unknown (fmt.Errorf H msg args) []) := by
  simp [Errorf, hu]

theorem Errorf_of_status (H : Host) (msg : String) (args : List Arg) (w : GoError)
    (st : Option Status) (hu : (fmt.Errorf H msg args).Unwrap = some w)
    (hst : status.FromError H w = some (st, true)) :
    Errorf H msg args = some (GoError.grpcerrError (Status.Code st) (fmt.Errorf H msg args)
      ((Status.Details H st).foldl Errorf.step [])) := by
  simp [Errorf, hu, hst]

theorem Errorf_of_no_status (H : Host) (msg : String) (args : List Arg) (w : GoError)
    (st : Option Status) (hu : (fmt.Errorf H msg args).Unwrap = some w)
    (hst : status.FromError H w = some (st, false)) :
    Errorf H msg args = some (GoError.grpcerrError codes.Unknown (fmt.Errorf H msg args) []) := by
  simp [Errorf, hu, hst]

theorem Unwrap_fmtErrorf (H : Host) (format : String) (a : List Arg) (w : GoError)
    (hw : (H.doPrintf format a).wrappedErr = w) (hne : w ≠ GoError.nil) :
    (fmt.Errorf H format a).Unwrap = some w := by
  simp [fmtErrorf_wrapped H format a w hw hne, GoError.Unwrap]

theorem FromError_coded (H : Host) (c : Code) (e : GoError) (ds : List ProtoMessage) (m : String)
    (he : e.Error = some m) :
    ∃ st, status.FromError H (GoError.grpcerrError c e ds) = some (some st, true) ∧
      st.code = c ∧ st.message = m := by
  obtain ⟨st, h, hc, hm⟩ := GRPCStatus_some H c e ds m he
  exact ⟨st, by simp [status.FromError, h], hc, hm⟩

theorem Details_New (H : Host) (c : Code) (m : String) :
    Status.Details H (some (status.New c m)) = [] := by
  simp [Status.Details, status.New]

theorem Errorf_shape (H : Host) (msg : String) (args : List Arg) :
    Errorf H msg args = none ∨
      ∃ code details,
        Errorf H msg args = some (GoError.grpcerrError code (fmt.Errorf H msg args) details) := by
  cases hu : (fmt.Errorf H msg args).Unwrap with
  | none => exact Or.inr ⟨_, _, Errorf_of_unwrap_none H msg args hu⟩
  | some w =>
    cases hst : status.FromError H w with
    | none => exact Or.inl (by simp [Errorf, hu, hst])
    | some r =>
      obtain ⟨st, ok⟩ := r
      cases ok
      · exact Or.inr ⟨_, _, Errorf_of_no_status H msg args w st hu hst⟩
      · exact Or.inr ⟨_, _, Errorf_of_status H msg args w st hu hst⟩

theorem FromError_defined (H : Host) (w : GoError) (hv : (w.Error).isSome) :
    ∃ r, status.FromError H w = some r := by
  cases w with
  | nil => exact ⟨_, rfl⟩
  | errorString s => exact ⟨_, rfl⟩
  | wrapError msg err => exact ⟨_, rfl⟩
  | statusError s => exact ⟨_, rfl⟩
  | grpcerrError c e ds =>
    obtain ⟨m, hm⟩ := Option.isSome_iff_exists.mp hv
    obtain ⟨st, h, _, _⟩ := FromError_coded H c e ds m hm
    exact ⟨_, h⟩

theorem foldl_step_eq (D : List Detail) (acc : List ProtoMessage) :
    (D.foldl Errorf.step acc).map Detail.msg =
      acc.map Detail.msg ++ D.filter (fun d => d.isMessage && !d.isError) := by
  induction D generalizing acc with
  | nil => simp
  | cons d D ih =>
    cases d with
    | err e => simpa [Errorf.step, Detail.isMessage, Detail.isError] using ih acc
    | msg x => simpa [Errorf.step, Detail.isMessage, Detail.isError] using ih (acc ++ [x])

theorem FromError_unknown_wrap (H : Host) (err : GoError) (text : String)
    (he : err.Error = some text) :
    status.FromError H (GoError.grpcerrError codes.Unknown err []) =
      some (some (status.New codes.Unknown text), true) := by
  simp [status.FromError, GRPCStatus_no_details H codes.Unknown err text he]

theorem fmtErrorf_ne_nil (H : Host) (format : String) (a : List Arg) :
    fmt.Errorf H format a ≠ GoError.nil := by
  rcases fmtErrorf_shape H format a with h | ⟨w, _, _, h⟩ <;> simp [h]

theorem plainWrap_ne_nil (H : Host) (ts : List String) (x : GoError) (hx : x ≠ GoError.nil) :
    plainWrap H ts x ≠ GoError.nil := by
  cases ts with
  | nil => exact hx
  | cons t ts => exact fmtErrorf_ne_nil H t _

theorem plainWrap_hasCoded (H : Host) (ts : List String) (x : GoError) (hx : x ≠ GoError.nil)
    (hts : ∀ t ∈ ts, ∀ y, y ≠ GoError.nil → (H.doPrintf t [Arg.err y]).wrappedErr = y) :
    (plainWrap H ts x).hasCoded = x.hasCoded := by
  induction ts with
  | nil => rfl
  | cons t ts ih =>
    have hne := plainWrap_ne_nil H ts x hx
    have hw := hts t (List.mem_cons_self t ts) _ hne
    have ih2 := ih (fun t2 h2 => hts t2 (List.mem_cons_of_mem t h2))
    simp [plainWrap, fmtErrorf_wrapped H t _ _ hw hne, GoError.hasCoded, ih2]

theorem exampleHost_wraps_ctx (y : GoError) (hy : y ≠ GoError.nil) :
    (exampleHost.doPrintf "ctx: %w" [Arg.err y]).wrappedErr = y := by
  cases y <;> first | exact absurd rfl hy | rfl

/-! ## Claims -/

/-- C1, refuted as stated: `e = &Error{NotFound, nil, nil}` is a non-nil error, the `%w` verb
of "ctx: %w" receives `New(InvalidArgument, e)`, and `Errorf` panics while it computes the
status of the unwrapped value (`GRPCStatus` of `New(InvalidArgument, e)` needs `e.Error()`,
which dereferences the nil `Err` of `e`): there is no result for `status.FromError`. -/
theorem Errorf_retains_code_counterexample :
    New codes.NotFound GoError.nil ≠ GoError.nil ∧
    (New codes.NotFound GoError.nil).Error = none ∧
    (exampleHost.doPrintf "ctx: %w"
      [Arg.err (New codes.InvalidArgument (New codes.NotFound GoError.nil))]).wrappedErr =
      New codes.InvalidArgument (New codes.NotFound GoError.nil) ∧
    Errorf exampleHost "ctx: %w"
      [Arg.err (New codes.InvalidArgument (New codes.NotFound GoError.nil))] = none := by
  decide

/-- C1, amended: for every code `c`, every error `e` whose `Error()` text `m` is defined and
every template whose `%w` verb receives `New(c, e)`, `Errorf` returns a value that
`status.FromError` recognises (`ok = true`) with a status whose `Code()` is `c`. -/
theorem Errorf_retains_code (H : Host) (c : Code) (e : GoError) (m : String) (template : String)
    (args : List Arg) (he : e.Error = some m)
    (hw : (H.doPrintf template args).wrappedErr = New c e) :
    ∃ r st, Errorf H template args = some r ∧
      status.FromError H r = some (some st, true) ∧ Status.Code (some st) = c := by
  have hne : New c e ≠ GoError.nil := by simp [New]
  have hu := Unwrap_fmtErrorf H template args (New c e) hw hne
  have hst : status.FromError H (New c e) = some (some (status.New c m), true) := by
    simp [New, status.FromError, GRPCStatus_no_details H c e m he]
  have hr := Errorf_of_status H template args (New c e) _ hu hst
  obtain ⟨st, h, hc, _⟩ := FromError_coded H (Status.Code (some (status.New c m)))
    (fmt.Errorf H template args) ((Status.Details H (some (status.New c m))).foldl Errorf.step [])
    _ (fmtErrorf_text H template args)
  exact ⟨_, st, hr, h, hc⟩

/-- Witness of the amended C1: the scenario of the test file, `InvalidArgument` and
"place id is invalid" under the template "failed to parse place name, %w". -/
theorem Errorf_retains_code_witness :
    (GoError.errorString "place id is invalid").Error = some "place id is invalid" ∧
    (exampleHost.doPrintf "failed to parse place name, %w"
      [Arg.err (New codes.InvalidArgument (GoError.errorString "place id is invalid"))]).wrappedErr
      = New codes.InvalidArgument (GoError.errorString "place id is invalid") ∧
    ∃ r st, Errorf exampleHost "failed to parse place name, %w"
        [Arg.err (New codes.InvalidArgument (GoError.errorString "place id is invalid"))] = some r ∧
      status.FromError exampleHost r = some (some st, true) ∧
      Status.Code (some st) = codes.InvalidArgument :=
  ⟨rfl, by decide,
    Errorf_retains_code exampleHost codes.InvalidArgument
      (GoError.errorString "place id is invalid") "place id is invalid"
      "failed to parse place name, %w"
      [Arg.err (New codes.InvalidArgument (GoError.errorString "place id is invalid"))]
      rfl (by decide)⟩

/-- C2, refuted as stated: on the argument `&Error{InvalidArgument, nil, nil}` under `%w`,
`fmt.Errorf` returns an error with a text (the printer recovers from the panic of its `Error`
method), while `Errorf` yields no value: `status.FromError` calls `GRPCStatus`, whose
`e.Err.Error()` panics.  So there is no result whose text equals that of `fmt.Errorf`. -/
theorem Errorf_text_counterexample :
    (fmt.Errorf exampleHost "ctx: %w"
      [Arg.err (New codes.InvalidArgument GoError.nil)]).Error =
      some ("ctx: %!v(PANIC=Error method: runtime error: " ++
        "invalid memory address or nil pointer dereference)") ∧
    Errorf exampleHost "ctx: %w" [Arg.err (New codes.InvalidArgument GoError.nil)] = none ∧
    ¬ ∃ r, Errorf exampleHost "ctx: %w" [Arg.err (New codes.InvalidArgument GoError.nil)] = some r ∧
      r.Error = (fmt.Errorf exampleHost "ctx: %w"
        [Arg.err (New codes.InvalidArgument GoError.nil)]).Error := by
  decide

/-- C2, amended: for every template and every argument list whose `%w` operand, if there is one,
is a well-formed error (its `Error()` text is defined), `Errorf(template, args...)` returns and
the text `Error()` of its result is exactly the text of `fmt.Errorf(template, args...)`, whatever
code and details it derives. -/
theorem Errorf_text_eq_fmt (H : Host) (template : String) (args : List Arg)
    (hv : (H.doPrintf template args).wrappedErr = GoError.nil ∨
      ((H.doPrintf template args).wrappedErr.Error).isSome) :
    ∃ r, Errorf H template args = some r ∧ r.Error = (fmt.Errorf H template args).Error ∧
      r.Error = some (H.doPrintf template args).buf := by
  have hdef : Errorf H template args ≠ none := by
    rcases fmtErrorf_shape H template args with h | ⟨w, hne, hw, h⟩
    · rw [Errorf_of_unwrap_none H template args (by simp [h, GoError.Unwrap])]
      simp
    · have hs : (w.Error).isSome := by
        rcases hv with hv | hv
        · exact absurd (hw ▸ hv) hne
        · exact hw ▸ hv
      obtain ⟨r, hr⟩ := FromError_defined H w hs
      obtain ⟨st, ok⟩ := r
      have hu : (fmt.Errorf H template args).Unwrap = some w := by simp [h, GoError.Unwrap]
      cases ok
      · rw [Errorf_of_no_status H template args w st hu hr]
        simp
      · rw [Errorf_of_status H template args w st hu hr]
        simp
  rcases Errorf_shape H template args with h | ⟨code, details, h⟩
  · exact absurd h hdef
  · exact ⟨_, h, rfl, by simp [GoError.Error, fmtErrorf_text]⟩

/-- Witness of the amended C2: the template and argument of the test file. -/
theorem Errorf_text_eq_fmt_witness :
    ((exampleHost.doPrintf "failed to parse place name, %w"
      [Arg.err (New codes.InvalidArgument (GoError.errorString "place id is invalid"))]).wrappedErr
        = GoError.nil ∨
      ((exampleHost.doPrintf "failed to parse place name, %w"
        [Arg.err (New codes.InvalidArgument
          (GoError.errorString "place id is invalid"))]).wrappedErr.Error).isSome) ∧
    ∃ r, Errorf exampleHost "failed to parse place name, %w"
        [Arg.err (New codes.InvalidArgument (GoError.errorString "place id is invalid"))] = some r ∧
      r.Error = (fmt.Errorf exampleHost "failed to parse place name, %w"
        [Arg.err (New codes.InvalidArgument (GoError.errorString "place id is invalid"))]).Error ∧
      r.Error = some (exampleHost.doPrintf "failed to parse place name, %w"
        [Arg.err (New codes.InvalidArgument (GoError.errorString "place id is invalid"))]).buf :=
  ⟨by decide,
    Errorf_text_eq_fmt exampleHost "failed to parse place name, %w"
      [Arg.err (New codes.InvalidArgument (GoError.errorString "place id is invalid"))]
      (by decide)⟩

/-- C3: for every code `c` and every error `e`, `New(c, e).Error()` is `e.Error()` (equally
undefined when `e.Error()` is), so the code never appears in the text; in particular
`New(c, errors.New(m)).Error() == m`, `New(c2, New(c1, errors.New(m))).Error() == m`, and the same
through a chain of any number of coded layers, with any details. -/
theorem New_text_eq_cause (c : Code) (e : GoError) :
    (New c e).Error = e.Error ∧
    (∀ m : String, (New c (GoError.errorString m)).Error = some m) ∧
    (∀ (c1 c2 : Code) (m : String), (New c2 (New c1 (GoError.errorString m))).Error = some m) ∧
    (∀ cs : List Code, (cs.foldr New e).Error = e.Error) ∧
    (∀ ds : List ProtoMessage, (GoError.grpcerrError c e ds).Error = e.Error) := by
  refine ⟨rfl, fun _ => rfl, fun _ _ _ => rfl, ?_, fun _ => rfl⟩
  intro cs
  induction cs with
  | nil => rfl
  | cons c0 cs ih => simpa [New, GoError.Error] using ih

/-- C4, refuted as stated: `e = &Error{NotFound, nil, nil}` is a non-nil error and
`status.FromError(New(InvalidArgument, e))` panics: `GRPCStatus` calls `e.Error()`, which
dereferences the nil `Err` of `e`.  No status is reported. -/
theorem FromError_New_counterexample :
    New codes.NotFound GoError.nil ≠ GoError.nil ∧
    (New codes.NotFound GoError.nil).Error = none ∧
    GRPCStatus exampleHost codes.InvalidArgument (New codes.NotFound GoError.nil) [] = none ∧
    status.FromError exampleHost
      (New codes.InvalidArgument (New codes.NotFound GoError.nil)) = none := by
  decide

/-- C4, amended: for every code `c` and every error `e` whose `Error()` text `m` is defined,
`status.FromError(New(c, e))` reports `ok = true` and a status whose `Code()` is `c` and whose
`Message()` is `e.Error()`; the same holds for `&Error{c, e, ds}` with any details `ds`, whether
`GRPCStatus` attaches them or falls back on the status without details. -/
theorem FromError_New (H : Host) (c : Code) (e : GoError) (m : String) (he : e.Error = some m) :
    (∃ st, status.FromError H (New c e) = some (some st, true) ∧
      Status.Code (some st) = c ∧ Status.Message (some st) = m) ∧
    ∀ ds : List ProtoMessage,
      ∃ st, status.FromError H (GoError.grpcerrError c e ds) = some (some st, true) ∧
        Status.Code (some st) = c ∧ Status.Message (some st) = m :=
  ⟨FromError_coded H c e [] m he, fun ds => FromError_coded H c e ds m he⟩

/-- Witness of the amended C4: `InvalidArgument` and "place id is invalid", as in the test file. -/
theorem FromError_New_witness :
    (GoError.errorString "place id is invalid").Error = some "place id is invalid" ∧
    ((∃ st, status.FromError exampleHost
        (New codes.InvalidArgument (GoError.errorString "place id is invalid"))
          = some (some st, true) ∧
      Status.Code (some st) = codes.InvalidArgument ∧
      Status.Message (some st) = "place id is invalid") ∧
    ∀ ds : List ProtoMessage,
      ∃ st, status.FromError exampleHost
          (GoError.grpcerrError codes.InvalidArgument
            (GoError.errorString "place id is invalid") ds) = some (some st, true) ∧
        Status.Code (some st) = codes.InvalidArgument ∧
        Status.Message (some st) = "place id is invalid") :=
  ⟨rfl, FromError_New exampleHost codes.InvalidArgument
    (GoError.errorString "place id is invalid") "place id is invalid" rfl⟩

/-- C5, refuted as stated: `New(InvalidArgument, errors.New("place id is invalid"))` under one
layer of plain wrapping has the coded error as its `Unwrap`, yet the extracted code is `Unknown`,
not `InvalidArgument`: `status.FromError` looks at the outermost value only.  And without any
wrapping, extraction from `New(InvalidArgument, e)` panics for the non-nil
`e = &Error{NotFound, nil, nil}`. -/
theorem extractCode_plainWrap_counterexample :
    plainWrap exampleHost ["ctx: %w"]
        (New codes.InvalidArgument (GoError.errorString "place id is invalid")) =
      GoError.wrapError "ctx: place id is invalid"
        (New codes.InvalidArgument (GoError.errorString "place id is invalid")) ∧
    extractCode exampleHost (plainWrap exampleHost ["ctx: %w"]
        (New codes.InvalidArgument (GoError.errorString "place id is invalid"))) =
      some codes.Unknown ∧
    extractCode exampleHost (plainWrap exampleHost ["ctx: %w"]
        (New codes.InvalidArgument (GoError.errorString "place id is invalid"))) ≠
      some codes.InvalidArgument ∧
    New codes.NotFound GoError.nil ≠ GoError.nil ∧
    extractCode exampleHost (plainWrap exampleHost []
        (New codes.InvalidArgument (New codes.NotFound GoError.nil))) = none := by
  decide

/-- C5, amended: for every code `c` and every error `e`, the code extracted from `New(c, e)`
itself is `c` when the `Error()` text of `e` is defined, and extraction panics when it is not;
once `New(c, e)` is wrapped in `n ≥ 1` layers of plain `fmt.Errorf` wrapping the value is not
recognised (`ok = false`) and the extracted code is `Unknown`, although a coded error lies in the
chain (whenever each template hands its operand to `%w`): extraction inspects the outermost
value and never walks the `Unwrap` chain. -/
theorem extractCode_plainWrap (H : Host) (c : Code) (e : GoError) (ts : List String) :
    (∀ m, e.Error = some m → extractCode H (plainWrap H [] (New c e)) = some c) ∧
    (e.Error = none → extractCode H (plainWrap H [] (New c e)) = none) ∧
    (ts ≠ [] → extractCode H (plainWrap H ts (New c e)) = some codes.Unknown ∧
      ∃ st, status.FromError H (plainWrap H ts (New c e)) = some (st, false)) ∧
    ((∀ t ∈ ts, ∀ y, y ≠ GoError.nil → (H.doPrintf t [Arg.err y]).wrappedErr = y) →
      (plainWrap H ts (New c e)).hasCoded = true) := by
  refine ⟨fun m he => ?_, fun he => ?_, fun hts => ?_, fun hts => ?_⟩
  · obtain ⟨st, h, hc, _⟩ := FromError_coded H c e [] m he
    simp [plainWrap, extractCode, New, h, Status.Code, hc]
  · simp [plainWrap, extractCode, New, status.FromError, GRPCStatus, he]
  · cases ts with
    | nil => exact absurd rfl hts
    | cons t ts =>
      refine ⟨?_, _, FromError_fmtErrorf H t _⟩
      simp [plainWrap, extractCode, FromError_fmtErrorf, Status.Code, status.New]
  · rw [plainWrap_hasCoded H ts (New c e) (by simp [New]) hts]
    rfl

/-- Witness of the amended C5: two layers of plain wrapping around an `InvalidArgument` error. -/
theorem extractCode_plainWrap_witness :
    (plainWrap exampleHost ["outer: %w", "ctx: %w"]
        (New codes.InvalidArgument (GoError.errorString "place id is invalid"))).hasCoded =
      true ∧
    extractCode exampleHost (plainWrap exampleHost []
        (New codes.InvalidArgument (GoError.errorString "place id is invalid"))) =
      some codes.InvalidArgument ∧
    extractCode exampleHost (plainWrap exampleHost ["outer: %w", "ctx: %w"]
        (New codes.InvalidArgument (GoError.errorString "place id is invalid"))) =
      some codes.Unknown ∧
    ((∀ m, (GoError.errorString "place id is invalid").Error = some m →
        extractCode exampleHost (plainWrap exampleHost []
          (New codes.InvalidArgument (GoError.errorString "place id is invalid"))) =
          some codes.InvalidArgument) ∧
    ((GoError.errorString "place id is invalid").Error = none →
        extractCode exampleHost (plainWrap exampleHost []
          (New codes.InvalidArgument (GoError.errorString "place id is invalid"))) = none) ∧
    (["outer: %w", "ctx: %w"] ≠ [] →
      extractCode exampleHost (plainWrap exampleHost ["outer: %w", "ctx: %w"]
        (New codes.InvalidArgument (GoError.errorString "place id is invalid"))) =
        some codes.Unknown ∧
      ∃ st, status.FromError exampleHost (plainWrap exampleHost ["outer: %w", "ctx: %w"]
        (New codes.InvalidArgument (GoError.errorString "place id is invalid"))) =
          some (st, false)) ∧
    ((∀ t ∈ ["outer: %w", "ctx: %w"], ∀ y, y ≠ GoError.nil →
        (exampleHost.doPrintf t [Arg.err y]).wrappedErr = y) →
      (plainWrap exampleHost ["outer: %w", "ctx: %w"]
        (New codes.InvalidArgument (GoError.errorString "place id is invalid"))).hasCoded =
        true)) :=
  ⟨by decide, by decide, by decide,
    extractCode_plainWrap exampleHost codes.InvalidArgument
      (GoError.errorString "place id is invalid") ["outer: %w", "ctx: %w"]⟩

/-- C6, refuted as stated: with the non-nil `e = &Error{NotFound, nil, nil}` the plain wrap
`fmt.Errorf("ctx: %w", New(InvalidArgument, e))` is indeed not recognised (`ok = false`), but
`Errorf` with the same template and argument panics, so `status.FromError` has nothing to report
`ok = true` of. -/
theorem plain_wrap_counterexample :
    New codes.NotFound GoError.nil ≠ GoError.nil ∧
    (fmt.Errorf exampleHost "ctx: %w"
      [Arg.err (New codes.InvalidArgument (New codes.NotFound GoError.nil))]).Unwrap =
      some (New codes.InvalidArgument (New codes.NotFound GoError.nil)) ∧
    (∃ st, status.FromError exampleHost (fmt.Errorf exampleHost "ctx: %w"
      [Arg.err (New codes.InvalidArgument (New codes.NotFound GoError.nil))]) =
      some (st, false)) ∧
    Errorf exampleHost "ctx: %w"
      [Arg.err (New codes.InvalidArgument (New codes.NotFound GoError.nil))] = none := by
  refine ⟨by decide, by decide, ⟨_, FromError_fmtErrorf exampleHost _ _⟩, by decide⟩

/-- C6, amended: for every code `c`, every error `e` and every template whose `%w` verb
receives `New(c, e)`, the plain wrap `fmt.Errorf(template, ...)`, whose `Unwrap` is `New(c, e)`,
is not recognised by `status.FromError`: it reports `ok = false` with a status of code `Unknown`.
When the `Error()` text of `e` is defined, `Errorf` with the same template and arguments returns
the `Error` with code `c` around that plain wrap, and `status.FromError` reports `ok = true` on
it, with a status of code `c` whose message is the formatted text; when it is not defined,
`Errorf` panics. -/
theorem plain_wrap_not_recognised (H : Host) (c : Code) (e : GoError)
    (template : String) (args : List Arg)
    (hw : (H.doPrintf template args).wrappedErr = New c e) :
    (fmt.Errorf H template args).Unwrap = some (New c e) ∧
    status.FromError H (fmt.Errorf H template args) =
      some (some (status.New codes.Unknown (H.doPrintf template args).buf), false) ∧
    (∀ m, e.Error = some m →
      Errorf H template args =
        some (GoError.grpcerrError c (fmt.Errorf H template args) []) ∧
      status.FromError H (GoError.grpcerrError c (fmt.Errorf H template args) []) =
        some (some (status.New c (H.doPrintf template args).buf), true)) ∧
    (e.Error = none → Errorf H template args = none) := by
  have hne : New c e ≠ GoError.nil := by simp [New]
  have hu := Unwrap_fmtErrorf H template args (New c e) hw hne
  refine ⟨hu, FromError_fmtErrorf H template args, fun m he => ?_, fun he => ?_⟩
  · have hst : status.FromError H (New c e) = some (some (status.New c m), true) := by
      simp [New, status.FromError, GRPCStatus_no_details H c e m he]
    have hr := Errorf_of_status H template args (New c e) _ hu hst
    refine ⟨?_, ?_⟩
    · rw [hr]
      simp [Status.Code, status.New, Status.Details]
    · simp [status.FromError,
        GRPCStatus_no_details H c (fmt.Errorf H template args) _ (fmtErrorf_text H template args)]
  · have hst : status.FromError H (New c e) = none := by
      simp [New, status.FromError, GRPCStatus, he]
    simp [Errorf, hu, hst]

/-- Witness of the amended C6: the two wraps compared in the test file. -/
theorem plain_wrap_not_recognised_witness :
    (exampleHost.doPrintf "failed to parse place name, %w"
      [Arg.err (New codes.InvalidArgument (GoError.errorString "place id is invalid"))]).wrappedErr
      = New codes.InvalidArgument (GoError.errorString "place id is invalid") ∧
    Errorf exampleHost "failed to parse place name, %w"
        [Arg.err (New codes.InvalidArgument (GoError.errorString "place id is invalid"))] =
      some (GoError.grpcerrError codes.InvalidArgument
        (GoError.wrapError "failed to parse place name, place id is invalid"
          (New codes.InvalidArgument (GoError.errorString "place id is invalid"))) []) ∧
    ((fmt.Errorf exampleHost "failed to parse place name, %w"
        [Arg.err (New codes.InvalidArgument
          (GoError.errorString "place id is invalid"))]).Unwrap =
      some (New codes.InvalidArgument (GoError.errorString "place id is invalid")) ∧
    status.FromError exampleHost (fmt.Errorf exampleHost "failed to parse place name, %w"
        [Arg.err (New codes.InvalidArgument (GoError.errorString "place id is invalid"))]) =
      some (some (status.New codes.Unknown
        (exampleHost.doPrintf "failed to parse place name, %w"
          [Arg.err (New codes.InvalidArgument
            (GoError.errorString "place id is invalid"))]).buf), false) ∧
    (∀ m, (GoError.errorString "place id is invalid").Error = some m →
      Errorf exampleHost "failed to parse place name, %w"
          [Arg.err (New codes.InvalidArgument (GoError.errorString "place id is invalid"))] =
        some (GoError.grpcerrError codes.InvalidArgument
          (fmt.Errorf exampleHost "failed to parse place name, %w"
            [Arg.err (New codes.InvalidArgument
              (GoError.errorString "place id is invalid"))]) []) ∧
      status.FromError exampleHost (GoError.grpcerrError codes.InvalidArgument
          (fmt.Errorf exampleHost "failed to parse place name, %w"
            [Arg.err (New codes.InvalidArgument
              (GoError.errorString "place id is invalid"))]) []) =
        some (some (status.New codes.InvalidArgument
          (exampleHost.doPrintf "failed to parse place name, %w"
            [Arg.err (New codes.InvalidArgument
              (GoError.errorString "place id is invalid"))]).buf), true)) ∧
    ((GoError.errorString "place id is invalid").Error = none →
      Errorf exampleHost "failed to parse place name, %w"
        [Arg.err (New codes.InvalidArgument (GoError.errorString "place id is invalid"))] =
        none)) :=
  ⟨by decide, by decide,
    plain_wrap_not_recognised exampleHost codes.InvalidArgument
      (GoError.errorString "place id is invalid")
      "failed to parse place name, %w"
      [Arg.err (New codes.InvalidArgument (GoError.errorString "place id is invalid"))]
      (by decide)⟩

/-- C7, refuted as stated: with `inner = &Error{InvalidArgument, errors.New("x"), [A]}` and
`outer = &Error{NotFound, inner, [B]}`, the code recovered from `outer` is `NotFound`, and
`Errorf("ctx: %w", outer)` has code `NotFound` and details `[B]`: those of the outer node, not
`InvalidArgument` and `[A]` of the innermost one.  And with the non-nil
`e = &Error{Unknown, nil, nil}` in place of `errors.New("x")`, `status.FromError(outer)`
panics. -/
theorem innermost_counterexample :
    extractCode exampleHost
      (GoError.grpcerrError codes.NotFound
        (GoError.grpcerrError codes.InvalidArgument (GoError.errorString "x")
          [{ typeName := "A", payload := [1] }])
        [{ typeName := "B", payload := [2] }]) = some codes.NotFound ∧
    Errorf exampleHost "ctx: %w"
      [Arg.err (GoError.grpcerrError codes.NotFound
        (GoError.grpcerrError codes.InvalidArgument (GoError.errorString "x")
          [{ typeName := "A", payload := [1] }])
        [{ typeName := "B", payload := [2] }])] =
      some (GoError.grpcerrError codes.NotFound
        (GoError.wrapError "ctx: x"
          (GoError.grpcerrError codes.NotFound
            (GoError.grpcerrError codes.InvalidArgument (GoError.errorString "x")
              [{ typeName := "A", payload := [1] }])
            [{ typeName := "B", payload := [2] }]))
        [{ typeName := "B", payload := [2] }]) ∧
    New codes.Unknown GoError.nil ≠ GoError.nil ∧
    status.FromError exampleHost
      (GoError.grpcerrError codes.NotFound
        (GoError.grpcerrError codes.InvalidArgument (New codes.Unknown GoError.nil)
          [{ typeName := "A", payload := [1] }])
        [{ typeName := "B", payload := [2] }]) = none := by
  decide

/-- C7, amended: when a chain contains more than one coded node, the outermost one is
authoritative.  For all codes `c1`, `c2`, all detail lists `d1`, `d2` and every error `e` whose
`Error()` text is defined, with `inner = &Error{c1, e, d1}` and `outer = &Error{c2, inner, d2}`:
the status of `outer` is the one built from `c2`, the text of `e` and `d2` alone;
`status.FromError(outer)` reports it with `ok = true`, so the recovered code is `c2`; and
`Errorf` with a template whose `%w` receives `outer` has code `c2` and, as details, the messages
among the `Details()` of that status.  Neither `c1` nor `d1` enters. -/
theorem outermost_coded_node (H : Host) (c1 c2 : Code) (d1 d2 : List ProtoMessage) (e : GoError)
    (m : String) (template : String) (args : List Arg) (he : e.Error = some m)
    (hw : (H.doPrintf template args).wrappedErr =
      GoError.grpcerrError c2 (GoError.grpcerrError c1 e d1) d2) :
    ∃ st, GRPCStatus H c2 e d2 = some st ∧ st.code = c2 ∧
      status.FromError H (GoError.grpcerrError c2 (GoError.grpcerrError c1 e d1) d2) =
        some (some st, true) ∧
      extractCode H (GoError.grpcerrError c2 (GoError.grpcerrError c1 e d1) d2) = some c2 ∧
      Errorf H template args = some (GoError.grpcerrError c2 (fmt.Errorf H template args)
        ((Status.Details H (some st)).foldl Errorf.step [])) := by
  obtain ⟨st, h, hc, _⟩ := GRPCStatus_some H c2 e d2 m he
  have hinner : GRPCStatus H c2 (GoError.grpcerrError c1 e d1) d2 = GRPCStatus H c2 e d2 := by
    simp [GRPCStatus, GoError.Error]
  have hst : status.FromError H (GoError.grpcerrError c2 (GoError.grpcerrError c1 e d1) d2) =
      some (some st, true) := by
    simp [status.FromError, hinner, h]
  have hu := Unwrap_fmtErrorf H template args _ hw (by simp)
  have hr := Errorf_of_status H template args _ _ hu hst
  refine ⟨st, h, hc, hst, ?_, ?_⟩
  · simp [extractCode, hst, Status.Code, hc]
  · simpa [Status.Code, hc] using hr

/-- Witness of the amended C7: the two nodes of the counterexample. -/
theorem outermost_coded_node_witness :
    (GoError.errorString "x").Error = some "x" ∧
    (exampleHost.doPrintf "ctx: %w"
      [Arg.err (GoError.grpcerrError codes.NotFound
        (GoError.grpcerrError codes.InvalidArgument (GoError.errorString "x")
          [{ typeName := "A", payload := [1] }])
        [{ typeName := "B", payload := [2] }])]).wrappedErr =
      GoError.grpcerrError codes.NotFound
        (GoError.grpcerrError codes.InvalidArgument (GoError.errorString "x")
          [{ typeName := "A", payload := [1] }])
        [{ typeName := "B", payload := [2] }] ∧
    ∃ st, GRPCStatus exampleHost codes.NotFound (GoError.errorString "x")
        [{ typeName := "B", payload := [2] }] = some st ∧ st.code = codes.NotFound ∧
      status.FromError exampleHost (GoError.grpcerrError codes.NotFound
        (GoError.grpcerrError codes.InvalidArgument (GoError.errorString "x")
          [{ typeName := "A", payload := [1] }])
        [{ typeName := "B", payload := [2] }]) = some (some st, true) ∧
      extractCode exampleHost (GoError.grpcerrError codes.NotFound
        (GoError.grpcerrError codes.InvalidArgument (GoError.errorString "x")
          [{ typeName := "A", payload := [1] }])
        [{ typeName := "B", payload := [2] }]) = some codes.NotFound ∧
      Errorf exampleHost "ctx: %w"
        [Arg.err (GoError.grpcerrError codes.NotFound
          (GoError.grpcerrError codes.InvalidArgument (GoError.errorString "x")
            [{ typeName := "A", payload := [1] }])
          [{ typeName := "B", payload := [2] }])] =
        some (GoError.grpcerrError codes.NotFound
          (fmt.Errorf exampleHost "ctx: %w"
            [Arg.err (GoError.grpcerrError codes.NotFound
              (GoError.grpcerrError codes.InvalidArgument (GoError.errorString "x")
                [{ typeName := "A", payload := [1] }])
              [{ typeName := "B", payload := [2] }])])
          ((Status.Details exampleHost (some st)).foldl Errorf.step [])) :=
  ⟨rfl, by decide,
    outermost_coded_node exampleHost codes.InvalidArgument codes.NotFound
      [{ typeName := "A", payload := [1] }] [{ typeName := "B", payload := [2] }]
      (GoError.errorString "x") "x" "ctx: %w" _ rfl (by decide)⟩

/-- C8, refuted as stated: for the template "boom" without any verb the formatted error has no
`Unwrap`, yet `Errorf` does not return it as it is: the result is `&Error{Unknown, err, nil}`
around it, and `status.FromError` recognises that result (`ok = true`). -/
theorem Errorf_no_unwrap_counterexample :
    (fmt.Errorf exampleHost "boom" []).Unwrap = none ∧
    fmt.Errorf exampleHost "boom" [] = GoError.errorString "boom" ∧
    Errorf exampleHost "boom" [] =
      some (GoError.grpcerrError codes.Unknown (GoError.errorString "boom") []) ∧
    Errorf exampleHost "boom" [] ≠ some (fmt.Errorf exampleHost "boom" []) ∧
    status.FromError exampleHost
      (GoError.grpcerrError codes.Unknown (GoError.errorString "boom") []) =
      some (some (status.New codes.Unknown "boom"), true) := by
  decide

/-- C8, amended: for every template and arguments for which the formatted error has no
single-step `Unwrap` (for example a template with no `%w` verb), `Errorf` returns a new `*Error`
that wraps the formatted error, with code `Unknown` and no details; its text is the formatted
text, and `status.FromError` recognises it (`ok = true`) with code `Unknown`, the formatted text
as message and no details. -/
theorem Errorf_no_unwrap (H : Host) (template : String) (args : List Arg)
    (hu : (fmt.Errorf H template args).Unwrap = none) :
    Errorf H template args =
      some (GoError.grpcerrError codes.Unknown (fmt.Errorf H template args) []) ∧
    (GoError.grpcerrError codes.Unknown (fmt.Errorf H template args) []).Error =
      (fmt.Errorf H template args).Error ∧
    status.FromError H (GoError.grpcerrError codes.Unknown (fmt.Errorf H template args) []) =
      some (some (status.New codes.Unknown (H.doPrintf template args).buf), true) ∧
    Status.Details H (some (status.New codes.Unknown (H.doPrintf template args).buf)) = [] :=
  ⟨Errorf_of_unwrap_none H template args hu, rfl,
    FromError_unknown_wrap H _ _ (fmtErrorf_text H template args), Details_New H _ _⟩

/-- Witness of the amended C8: the template "ctx: %v" applied to a coded error. -/
theorem Errorf_no_unwrap_witness :
    (fmt.Errorf exampleHost "ctx: %v" [Arg.err (NewMsg codes.NotFound "gone")]).Unwrap = none ∧
    (Errorf exampleHost "ctx: %v" [Arg.err (NewMsg codes.NotFound "gone")] =
      some (GoError.grpcerrError codes.Unknown
        (fmt.Errorf exampleHost "ctx: %v" [Arg.err (NewMsg codes.NotFound "gone")]) []) ∧
    (GoError.grpcerrError codes.Unknown
        (fmt.Errorf exampleHost "ctx: %v" [Arg.err (NewMsg codes.NotFound "gone")]) []).Error =
      (fmt.Errorf exampleHost "ctx: %v" [Arg.err (NewMsg codes.NotFound "gone")]).Error ∧
    status.FromError exampleHost (GoError.grpcerrError codes.Unknown
        (fmt.Errorf exampleHost "ctx: %v" [Arg.err (NewMsg codes.NotFound "gone")]) []) =
      some (some (status.New codes.Unknown
        (exampleHost.doPrintf "ctx: %v" [Arg.err (NewMsg codes.NotFound "gone")]).buf), true) ∧
    Status.Details exampleHost (some (status.New codes.Unknown
        (exampleHost.doPrintf "ctx: %v" [Arg.err (NewMsg codes.NotFound "gone")]).buf)) = []) :=
  ⟨by decide,
    Errorf_no_unwrap exampleHost "ctx: %v" [Arg.err (NewMsg codes.NotFound "gone")] (by decide)⟩

/-- C9: for every plain error `p`, non-nil and with no coded error anywhere in its chain, and
every template whose `%w` verb receives `p` (such as "context: %w"), `Errorf` returns an `Error`
around the formatted error whose code is `Unknown` and whose details are empty, and
`status.FromError` on it yields a status with code `Unknown` and no details. -/
theorem Errorf_plain_unknown (H : Host) (p : GoError) (template : String)
    (hne : p ≠ GoError.nil) (hp : p.hasCoded = false)
    (hw : (H.doPrintf template [Arg.err p]).wrappedErr = p) :
    Errorf H template [Arg.err p] =
      some (GoError.grpcerrError codes.Unknown (fmt.Errorf H template [Arg.err p]) []) ∧
    ∃ st, status.FromError H
        (GoError.grpcerrError codes.Unknown (fmt.Errorf H template [Arg.err p]) []) =
        some (some st, true) ∧
      Status.Code (some st) = codes.Unknown ∧ Status.Details H (some st) = [] := by
  have hu := Unwrap_fmtErrorf H template [Arg.err p] p hw hne
  have hst : ∃ st, status.FromError H p = some (st, false) := by
    cases p with
    | nil => exact absurd rfl hne
    | errorString s => exact ⟨_, rfl⟩
    | wrapError msg err => exact ⟨_, rfl⟩
    | grpcerrError c e ds => simp [GoError.hasCoded] at hp
    | statusError s => simp [GoError.hasCoded] at hp
  obtain ⟨st, hst⟩ := hst
  exact ⟨Errorf_of_no_status H template [Arg.err p] p st hu hst, _,
    FromError_unknown_wrap H _ _ (fmtErrorf_text H template [Arg.err p]), rfl, Details_New H _ _⟩

/-- Witness of C9: the scenario `Errorf("context: %w", errors.New("boom"))`. -/
theorem Errorf_plain_unknown_witness :
    GoError.errorString "boom" ≠ GoError.nil ∧
    (GoError.errorString "boom").hasCoded = false ∧
    (exampleHost.doPrintf "context: %w" [Arg.err (GoError.errorString "boom")]).wrappedErr =
      GoError.errorString "boom" ∧
    (Errorf exampleHost "context: %w" [Arg.err (GoError.errorString "boom")] =
      some (GoError.grpcerrError codes.Unknown
        (fmt.Errorf exampleHost "context: %w" [Arg.err (GoError.errorString "boom")]) []) ∧
    ∃ st, status.FromError exampleHost
        (GoError.grpcerrError codes.Unknown
          (fmt.Errorf exampleHost "context: %w" [Arg.err (GoError.errorString "boom")]) []) =
        some (some st, true) ∧
      Status.Code (some st) = codes.Unknown ∧ Status.Details exampleHost (some st) = []) :=
  ⟨by decide, rfl, by decide,
    Errorf_plain_unknown exampleHost (GoError.errorString "boom") "context: %w"
      (by decide) rfl (by decide)⟩

/-- C10, detail filtering: whenever the value `w` unwrapped by `Errorf` is recognised as a status
`st` (`ok = true`), the details of the result of `Errorf`, read as entries, are exactly the
entries of `st.Details()` that are messages and not errors, in their original order: a
subsequence of `st.Details()` in which no error entry occurs and nothing is added or repeated. -/
theorem Errorf_details_filter (H : Host) (template : String) (args : List Arg) (w : GoError)
    (st : Option Status) (hu : (fmt.Errorf H template args).Unwrap = some w)
    (hst : status.FromError H w = some (st, true)) :
    ∃ details,
      Errorf H template args =
        some (GoError.grpcerrError (Status.Code st) (fmt.Errorf H template args) details) ∧
      details.map Detail.msg =
        (Status.Details H st).filter (fun d => d.isMessage && !d.isError) ∧
      (details.map Detail.msg).Sublist (Status.Details H st) ∧
      (∀ d ∈ details.map Detail.msg, d.isError = false) ∧
      details.length = (Status.Details H st).countP (fun d => d.isMessage && !d.isError) := by
  have hf := foldl_step_eq (Status.Details H st) []
  simp only [List.map_nil, List.nil_append] at hf
  refine ⟨_, Errorf_of_status H template args w st hu hst, hf, ?_, ?_, ?_⟩
  · rw [hf]
    exact List.filter_sublist _
  · intro d hd
    rw [hf] at hd
    have := (List.mem_filter.mp hd).2
    simp only [Bool.and_eq_true, Bool.not_eq_true'] at this
    exact this.2
  · have := congrArg List.length hf
    simpa [List.countP_eq_length_filter] using this

/-- Witness of C10: a status error whose second entry cannot be decoded; the two messages
around it survive, in order. -/
theorem Errorf_details_filter_witness :
    (fmt.Errorf exampleHost "ctx: %w" [Arg.err (GoError.statusError sampleStatus)]).Unwrap =
      some (GoError.statusError sampleStatus) ∧
    status.FromError exampleHost (GoError.statusError sampleStatus) =
      some (some sampleStatus, true) ∧
    Status.Details exampleHost (some sampleStatus) =
      [Detail.msg { typeName := "A", payload := [1] },
        Detail.err (GoError.errorString "any: message type is unknown"),
        Detail.msg { typeName := "B", payload := [2] }] ∧
    Errorf exampleHost "ctx: %w" [Arg.err (GoError.statusError sampleStatus)] =
      some (GoError.grpcerrError codes.NotFound
        (GoError.wrapError "ctx: rpc error: code = NotFound desc = gone"
          (GoError.statusError sampleStatus))
        [{ typeName := "A", payload := [1] }, { typeName := "B", payload := [2] }]) ∧
    ∃ details,
      Errorf exampleHost "ctx: %w" [Arg.err (GoError.statusError sampleStatus)] =
        some (GoError.grpcerrError (Status.Code (some sampleStatus))
          (fmt.Errorf exampleHost "ctx: %w" [Arg.err (GoError.statusError sampleStatus)])
          details) ∧
      details.map Detail.msg =
        (Status.Details exampleHost (some sampleStatus)).filter
          (fun d => d.isMessage && !d.isError) ∧
      (details.map Detail.msg).Sublist (Status.Details exampleHost (some sampleStatus)) ∧
      (∀ d ∈ details.map Detail.msg, d.isError = false) ∧
      details.length =
        (Status.Details exampleHost (some sampleStatus)).countP
          (fun d => d.isMessage && !d.isError) :=
  ⟨by decide, by decide, by decide, by decide,
    Errorf_details_filter exampleHost "ctx: %w" [Arg.err (GoError.statusError sampleStatus)]
      (GoError.statusError sampleStatus) (some sampleStatus) (by decide) (by decide)⟩

/-! ### Status conversion and details -/

theorem appendDetails_none_iff (H : Host) (p : List AnyPB) (ds : List ProtoMessage) :
    Status.appendDetails H p ds = none ↔ ∃ d ∈ ds, H.MarshalAny d = none := by
  induction ds generalizing p with
  | nil => simp [Status.appendDetails]
  | cons d ds ih =>
    cases hd : H.MarshalAny d with
    | none => simp [Status.appendDetails, hd]
    | some a => simp [Status.appendDetails, hd, ih]

theorem appendDetails_some (H : Host) (p q : List AnyPB) (ds : List ProtoMessage)
    (h : Status.appendDetails H p ds = some q) :
    ∃ enc, q = p ++ enc ∧ List.Forall₂ (fun d a => H.MarshalAny d = some a) ds enc := by
  induction ds generalizing p with
  | nil =>
    simp only [Status.appendDetails, Option.some.injEq] at h
    exact ⟨[], by simp [h], List.Forall₂.nil⟩
  | cons d ds ih =>
    cases hd : H.MarshalAny d with
    | none => simp [Status.appendDetails, hd] at h
    | some a =>
      simp only [Status.appendDetails, hd] at h
      obtain ⟨enc, hq, hall⟩ := ih (p ++ [a]) h
      exact ⟨a :: enc, by simp [hq], List.Forall₂.cons hd hall⟩

theorem WithDetails_none_iff (H : Host) (s : Status) (ds : List ProtoMessage) :
    s.WithDetails H ds = none ↔ s.code = codes.OK ∨ ∃ d ∈ ds, H.MarshalAny d = none := by
  unfold Status.WithDetails
  by_cases hc : s.code = codes.OK
  · simp [hc]
  · simp only [hc, if_false, false_or]
    rw [← appendDetails_none_iff H s.details ds]
    cases Status.appendDetails H s.details ds <;> simp

theorem WithDetails_some (H : Host) (s t : Status) (ds : List ProtoMessage)
    (h : s.WithDetails H ds = some t) :
    ∃ enc, t.details = s.details ++ enc ∧
      List.Forall₂ (fun d a => H.MarshalAny d = some a) ds enc := by
  unfold Status.WithDetails at h
  split at h
  · simp at h
  · split at h
    · simp at h
    · rename_i p hp
      simp only [Option.some.injEq] at h
      subst h
      exact appendDetails_some H _ _ _ hp

/-- C11, refuted as stated: `e = &Error{NotFound, nil, nil}` is a non-nil error and
`GRPCStatus` of `&Error{InvalidArgument, e, ds}` fails for every `ds`, here the empty list and a
list of one detail: the call `e.Err.Error()` reaches the nil `Err` of `e` and panics before any
status exists. -/
theorem GRPCStatus_degrades_counterexample :
    New codes.NotFound GoError.nil ≠ GoError.nil ∧
    (New codes.NotFound GoError.nil).Error = none ∧
    GRPCStatus exampleHost codes.InvalidArgument (New codes.NotFound GoError.nil) [] = none ∧
    GRPCStatus exampleHost codes.InvalidArgument (New codes.NotFound GoError.nil)
      [{ typeName := "A", payload := [1] }] = none := by
  decide

/-- C11, amended, graceful degradation: for every `&Error{c, e, ds}` whose cause `e` has an
`Error()` text `m` that is defined, `GRPCStatus` returns a status.  Attaching `ds` fails exactly
when the code is `OK` or some detail cannot be encoded, and then the status returned has code
`c`, message `m` and no details; when attaching succeeds the status returned has code `c`,
message `m` and, as details, the encodings of `ds`, entry by entry in order. -/
theorem GRPCStatus_degrades (H : Host) (c : Code) (e : GoError) (ds : List ProtoMessage)
    (m : String) (he : e.Error = some m) :
    (∃ st, GRPCStatus H c e ds = some st) ∧
    ((status.New c m).WithDetails H ds = none ↔
      c = codes.OK ∨ ∃ d ∈ ds, H.MarshalAny d = none) ∧
    ((status.New c m).WithDetails H ds = none →
      GRPCStatus H c e ds = some { code := c, message := m, details := [] }) ∧
    (∀ t, (status.New c m).WithDetails H ds = some t →
      GRPCStatus H c e ds = some t ∧ t.code = c ∧ t.message = m ∧
        List.Forall₂ (fun d a => H.MarshalAny d = some a) ds t.details) := by
  refine ⟨?_, WithDetails_none_iff H _ ds, ?_, ?_⟩
  · obtain ⟨st, h, _, _⟩ := GRPCStatus_some H c e ds m he
    exact ⟨st, h⟩
  · intro h
    simp only [GRPCStatus, he, h]
    rfl
  · intro t h
    obtain ⟨hc, hm⟩ := WithDetails_code_message H _ _ _ h
    obtain ⟨enc, hd, hall⟩ := WithDetails_some H _ _ _ h
    refine ⟨by simp only [GRPCStatus, he, h], hc, hm, ?_⟩
    have : t.details = enc := by simpa [status.New] using hd
    rw [this]
    exact hall

/-- Witness of the amended C11: a `NotFound` error with one detail that encodes and one that
does not (no type name), so that attaching fails and the status comes back without details. -/
theorem GRPCStatus_degrades_witness :
    (GoError.errorString "gone").Error = some "gone" ∧
    GRPCStatus exampleHost codes.NotFound (GoError.errorString "gone")
      [{ typeName := "A", payload := [1] }, { typeName := "", payload := [] }] =
      some { code := codes.NotFound, message := "gone", details := [] } ∧
    GRPCStatus exampleHost codes.NotFound (GoError.errorString "gone")
      [{ typeName := "A", payload := [1] }] =
      some { code := codes.NotFound, message := "gone",
             details := [{ typeUrl := "A", value := [1] }] } ∧
    GRPCStatus exampleHost codes.OK (GoError.errorString "gone")
      [{ typeName := "A", payload := [1] }] =
      some { code := codes.OK, message := "gone", details := [] } ∧
    ((∃ st, GRPCStatus exampleHost codes.NotFound (GoError.errorString "gone")
        [{ typeName := "A", payload := [1] }, { typeName := "", payload := [] }] = some st) ∧
    ((status.New codes.NotFound "gone").WithDetails exampleHost
        [{ typeName := "A", payload := [1] }, { typeName := "", payload := [] }] = none ↔
      codes.NotFound = codes.OK ∨
        ∃ d ∈ [({ typeName := "A", payload := [1] } : ProtoMessage),
            { typeName := "", payload := [] }], exampleHost.MarshalAny d = none) ∧
    ((status.New codes.NotFound "gone").WithDetails exampleHost
        [{ typeName := "A", payload := [1] }, { typeName := "", payload := [] }] = none →
      GRPCStatus exampleHost codes.NotFound (GoError.errorString "gone")
        [{ typeName := "A", payload := [1] }, { typeName := "", payload := [] }] =
        some { code := codes.NotFound, message := "gone", details := [] }) ∧
    (∀ t, (status.New codes.NotFound "gone").WithDetails exampleHost
        [{ typeName := "A", payload := [1] }, { typeName := "", payload := [] }] = some t →
      GRPCStatus exampleHost codes.NotFound (GoError.errorString "gone")
        [{ typeName := "A", payload := [1] }, { typeName := "", payload := [] }] = some t ∧
      t.code = codes.NotFound ∧ t.message = "gone" ∧
        List.Forall₂ (fun d a => exampleHost.MarshalAny d = some a)
          [{ typeName := "A", payload := [1] }, { typeName := "", payload := [] }]
          t.details)) :=
  ⟨rfl, by decide, by decide, by decide,
    GRPCStatus_degrades exampleHost codes.NotFound (GoError.errorString "gone")
      [{ typeName := "A", payload := [1] }, { typeName := "", payload := [] }] "gone" rfl⟩

/-! ### Rounds of wrapping -/

theorem simplePrintf_literal (c : Char) (cs : List Char) (a : List Arg) (buf : List Char)
    (w : GoError) (we : Bool) (hc : c ≠ '%') :
    simplePrintf (c :: cs) a buf w we = simplePrintf cs a (buf ++ [c]) w we := by
  rw [simplePrintf]
  all_goals (intros; simp_all)

theorem simplePrintf_context (ctx rest : List Char) (a : List Arg) (buf : List Char)
    (w : GoError) (we : Bool) (hctx : '%' ∉ ctx) :
    simplePrintf (ctx ++ rest) a buf w we = simplePrintf rest a (buf ++ ctx) w we := by
  induction ctx generalizing buf with
  | nil => simp
  | cons c cs ih =>
    have hc : c ≠ '%' := fun h => hctx (by simp [h])
    have hcs : '%' ∉ cs := fun h => hctx (by simp [h])
    rw [List.cons_append, simplePrintf_literal c _ a buf w we hc, ih _ hcs]
    simp

theorem simplePrintf_wrap (y : GoError) (s : String) (buf : List Char) (hy : y.Error = some s) :
    simplePrintf ['%', 'w'] [Arg.err y] buf GoError.nil true =
      some { buf := String.mk (buf ++ s.data), wrappedErr := y } := by
  cases y <;> simp_all [simplePrintf, verbText, GoError.Error]

theorem exampleHost_prints (ctx : String) (y : GoError) (s : String) (hctx : '%' ∉ ctx.data)
    (hy : y.Error = some s) :
    exampleHost.doPrintf (ctx ++ "%w") [Arg.err y] = { buf := ctx ++ s, wrappedErr := y } := by
  have hd : (ctx ++ "%w").data = ctx.data ++ ['%', 'w'] := by
    rw [String.data_append]
  simp only [exampleHost, hd, simplePrintf_context _ _ _ _ _ _ hctx, simplePrintf_wrap y s _ hy]
  simp [String.ext_iff]

theorem ne_nil_of_text (y : GoError) (h : (y.Error).isSome) : y ≠ GoError.nil := by
  intro hy
  subst hy
  simp [GoError.Error] at h

theorem Errorf_wrap_shape (H : Host) (t : String) (prev : GoError)
    (hprev : (prev.Error).isSome)
    (hw : (H.doPrintf t [Arg.err prev]).wrappedErr = prev) :
    ∃ code details, Errorf H t [Arg.err prev] =
      some (GoError.grpcerrError code
        (GoError.wrapError (H.doPrintf t [Arg.err prev]).buf prev) details) := by
  have hne := ne_nil_of_text prev hprev
  have hf := fmtErrorf_wrapped H t [Arg.err prev] prev hw hne
  have hu := Unwrap_fmtErrorf H t [Arg.err prev] prev hw hne
  obtain ⟨r, hr⟩ := FromError_defined H prev hprev
  obtain ⟨st, ok⟩ := r
  cases ok
  · exact ⟨_, _, by rw [Errorf_of_no_status H t _ prev st hu hr, hf]⟩
  · exact ⟨_, _, by rw [Errorf_of_status H t _ prev st hu hr, hf]⟩

theorem simplePrintf_capture (y : GoError) (buf : List Char) (hy : y ≠ GoError.nil) :
    simplePrintf ['%', 'w'] [Arg.err y] buf GoError.nil true =
      some { buf := String.mk (buf ++ (verbText 'v' (Arg.err y)).data), wrappedErr := y } := by
  cases y <;> simp_all [simplePrintf]

theorem exampleHost_wraps (ctx : String) (y : GoError) (hctx : '%' ∉ ctx.data)
    (hy : y ≠ GoError.nil) :
    (exampleHost.doPrintf (ctx ++ "%w") [Arg.err y]).wrappedErr = y := by
  have hd : (ctx ++ "%w").data = ctx.data ++ ['%', 'w'] := by
    rw [String.data_append]
  simp only [exampleHost, hd, simplePrintf_context _ _ _ _ _ _ hctx, simplePrintf_capture y _ hy]

theorem exampleHost_wraps_sample (t : String)
    (ht : t ∈ ["outer: %w", "failed to parse place name, %w"]) (y : GoError)
    (hy : y ≠ GoError.nil) : (exampleHost.doPrintf t [Arg.err y]).wrappedErr = y := by
  simp only [List.mem_cons, List.mem_singleton, List.not_mem_nil, or_false] at ht
  rcases ht with rfl | rfl
  · exact exampleHost_wraps "outer: " y (by decide) hy
  · exact exampleHost_wraps "failed to parse place name, " y (by decide) hy

theorem Located_same_self (x : Located) (a : Nat) (rest : List Nat)
    (hv : x.val ≠ GoError.nil) (ha : x.addrs = a :: rest) : x.same x = true := by
  simp [Located.same, hv, ha]

theorem Is_loop_step (x w : Located) (hne : (w.Unwrap).val ≠ GoError.nil)
    (h : ∃ fuel0, ∀ fuel, fuel0 ≤ fuel → errors.Is.loop x fuel w.Unwrap = some true) :
    ∃ fuel0, ∀ fuel, fuel0 ≤ fuel → errors.Is.loop x fuel w = some true := by
  obtain ⟨fuel0, h0⟩ := h
  refine ⟨fuel0 + 1, fun fuel hf => ?_⟩
  cases fuel with
  | zero => omega
  | succ f =>
    have hf0 : fuel0 ≤ f := by omega
    by_cases hs : w.same x = true
    · simp [errors.Is.loop, hs]
    · simp [errors.Is.loop, hs, hne, h0 f hf0]

theorem wrapsAt_reach (H : Host) (x : Located) (a : Nat) (rest : List Nat)
    (hx : (x.val.Error).isSome) (ha : x.addrs = a :: rest) (ks : List Wrap) (next : Nat)
    (hks : ∀ k ∈ ks, ∀ y, y ≠ GoError.nil →
      (H.doPrintf k.template [Arg.err y]).wrappedErr = y) :
    ∃ w next2, wrapsAt H ks next x = some (w, next2) ∧ (w.val.Error).isSome ∧
      wraps H ks x.val = some w.val ∧
      ∃ fuel0, ∀ fuel, fuel0 ≤ fuel → errors.Is.loop x fuel w = some true := by
  induction ks with
  | nil =>
    refine ⟨x, next, rfl, hx, rfl, 1, fun fuel hf => ?_⟩
    cases fuel with
    | zero => omega
    | succ f =>
      simp [errors.Is.loop, Located_same_self x a rest (ne_nil_of_text x.val hx) ha]
  | cons k ks ih =>
    obtain ⟨prev, nx, hprev, htext, hval, hreach⟩ :=
      ih (fun k2 h2 => hks k2 (List.mem_cons_of_mem k h2))
    have hne := ne_nil_of_text prev.val htext
    have hw := hks k (List.mem_cons_self k ks) prev.val hne
    cases k with
    | plain t =>
      have hf := fmtErrorf_wrapped H t [Arg.err prev.val] prev.val hw hne
      refine ⟨{ val := GoError.wrapError (H.doPrintf t [Arg.err prev.val]).buf prev.val,
                addrs := nx :: prev.addrs }, nx + 1, ?_, ?_, ?_, ?_⟩
      · simp [wrapsAt, hprev, Wrap.applyAt, Wrap.apply, hf, Located.below, GoError.Unwrap]
      · simp [GoError.Error]
      · simp [wraps, hval, Wrap.apply, hf]
      · exact Is_loop_step x _ hne hreach
    | coded t =>
      have hf := fmtErrorf_wrapped H t [Arg.err prev.val] prev.val hw hne
      obtain ⟨code, details, hr⟩ := Errorf_wrap_shape H t prev.val htext hw
      refine ⟨{ val := GoError.grpcerrError code
                  (GoError.wrapError (H.doPrintf t [Arg.err prev.val]).buf prev.val) details,
                addrs := (nx + 1) :: nx :: prev.addrs }, nx + 2, ?_, ?_, ?_, ?_⟩
      · simp [wrapsAt, hprev, Wrap.applyAt, Wrap.apply, hr, hf, Located.below, GoError.Unwrap]
      · simp [GoError.Error]
      · simp [wraps, hval, Wrap.apply, hr]
      · refine Is_loop_step x _ (by simp [Located.Unwrap, errors.Unwrap, GoError.Unwrap]) ?_
        exact Is_loop_step x
          { val := GoError.wrapError (H.doPrintf t [Arg.err prev.val]).buf prev.val,
            addrs := nx :: prev.addrs } hne hreach

/-- C12, refuted as stated: `x = New(InvalidArgument, e)` with the non-nil
`e = &Error{NotFound, nil, nil}` is a coded error, and its first wrap `Errorf("ctx: %w", x)`
panics (the status of the unwrapped `x` needs `e.Error()`), so there is no wrapped value for
`errors.Is` to hold of. -/
theorem errors_Is_counterexample :
    New codes.NotFound GoError.nil ≠ GoError.nil ∧
    (exampleHost.doPrintf "ctx: %w"
      [Arg.err (New codes.InvalidArgument (New codes.NotFound GoError.nil))]).wrappedErr =
      New codes.InvalidArgument (New codes.NotFound GoError.nil) ∧
    wraps exampleHost [Wrap.coded "ctx: %w"]
      (New codes.InvalidArgument (New codes.NotFound GoError.nil)) = none ∧
    wrapsAt exampleHost [Wrap.coded "ctx: %w"] 2
      (Located.New 1 codes.InvalidArgument
        { val := New codes.NotFound GoError.nil, addrs := [0] }) = none := by
  decide

/-- C12, amended: for every coded error `x = New(c, e)` whose cause `e` has a defined `Error()`
text, and every sequence of wraps, each being `fmt.Errorf(t, prev)` or `Errorf(t, prev)` with a
template that hands its operand to `%w`, the wraps return a value `w` and `errors.Is(w, x)`
holds (as soon as the loop is given enough rounds): following `Unwrap` from `w` reaches the
object `x` itself, at its address.  And `Unwrap` of `New(c, e)` is `e`. -/
theorem errors_Is_after_wraps (H : Host) (c : Code) (e : Located) (m : String) (a next : Nat)
    (he : e.val.Error = some m) (ks : List Wrap)
    (hks : ∀ k ∈ ks, ∀ y, y ≠ GoError.nil →
      (H.doPrintf k.template [Arg.err y]).wrappedErr = y) :
    (∃ w next2, wrapsAt H ks next (Located.New a c e) = some (w, next2) ∧
      wraps H ks (New c e.val) = some w.val ∧
      ∃ fuel0, ∀ fuel, fuel0 ≤ fuel → errors.Is fuel w (Located.New a c e) = some true) ∧
    (Located.New a c e).Unwrap = e ∧ (New c e.val).Unwrap = some e.val := by
  have hx : (((Located.New a c e).val).Error).isSome := by
    simp [Located.New, New, GoError.Error, he]
  obtain ⟨w, next2, hw, _, hval, fuel0, hreach⟩ :=
    wrapsAt_reach H (Located.New a c e) a e.addrs hx rfl ks next hks
  refine ⟨⟨w, next2, hw, hval, fuel0, fun fuel hf => ?_⟩, rfl, rfl⟩
  have hnil : (Located.New a c e).val ≠ GoError.nil := by simp [Located.New, New]
  simp only [errors.Is, hnil, if_false]
  exact hreach fuel hf

/-- Witness of the amended C12: the error of the test file, allocated at address 1 around a
cause at address 0, under a plain wrap and then an `Errorf` wrap; `errors.Is` holds of the
object itself and fails for another allocation with the same content. -/
theorem errors_Is_after_wraps_witness :
    (GoError.errorString "place id is invalid").Error = some "place id is invalid" ∧
    (∀ k ∈ [Wrap.coded "outer: %w", Wrap.plain "failed to parse place name, %w"],
      ∀ y, y ≠ GoError.nil →
        (exampleHost.doPrintf k.template [Arg.err y]).wrappedErr = y) ∧
    wrapsAt exampleHost [Wrap.coded "outer: %w", Wrap.plain "failed to parse place name, %w"] 2
        (Located.New 1 codes.InvalidArgument
          { val := GoError.errorString "place id is invalid", addrs := [0] }) =
      some ({ val := GoError.grpcerrError codes.Unknown
                (GoError.wrapError "outer: failed to parse place name, place id is invalid"
                  (GoError.wrapError "failed to parse place name, place id is invalid"
                    (New codes.InvalidArgument (GoError.errorString "place id is invalid"))))
                [],
              addrs := [4, 3, 2, 1, 0] }, 5) ∧
    errors.Is 5
        { val := GoError.grpcerrError codes.Unknown
            (GoError.wrapError "outer: failed to parse place name, place id is invalid"
              (GoError.wrapError "failed to parse place name, place id is invalid"
                (New codes.InvalidArgument (GoError.errorString "place id is invalid"))))
            [],
          addrs := [4, 3, 2, 1, 0] }
        (Located.New 1 codes.InvalidArgument
          { val := GoError.errorString "place id is invalid", addrs := [0] }) = some true ∧
    errors.Is 5
        { val := GoError.grpcerrError codes.Unknown
            (GoError.wrapError "outer: failed to parse place name, place id is invalid"
              (GoError.wrapError "failed to parse place name, place id is invalid"
                (New codes.InvalidArgument (GoError.errorString "place id is invalid"))))
            [],
          addrs := [4, 3, 2, 1, 0] }
        (Located.New 9 codes.InvalidArgument
          { val := GoError.errorString "place id is invalid", addrs := [8] }) = some false ∧
    ((∃ w next2, wrapsAt exampleHost
          [Wrap.coded "outer: %w", Wrap.plain "failed to parse place name, %w"] 2
          (Located.New 1 codes.InvalidArgument
            { val := GoError.errorString "place id is invalid", addrs := [0] }) =
          some (w, next2) ∧
        wraps exampleHost [Wrap.coded "outer: %w", Wrap.plain "failed to parse place name, %w"]
          (New codes.InvalidArgument (GoError.errorString "place id is invalid")) =
          some w.val ∧
        ∃ fuel0, ∀ fuel, fuel0 ≤ fuel →
          errors.Is fuel w (Located.New 1 codes.InvalidArgument
            { val := GoError.errorString "place id is invalid", addrs := [0] }) = some true) ∧
      (Located.New 1 codes.InvalidArgument
          { val := GoError.errorString "place id is invalid", addrs := [0] }).Unwrap =
        { val := GoError.errorString "place id is invalid", addrs := [0] } ∧
      (New codes.InvalidArgument (GoError.errorString "place id is invalid")).Unwrap =
        some (GoError.errorString "place id is invalid")) :=
  ⟨rfl,
    fun k hk y hy => exampleHost_wraps_sample k.template
      (by
        simp only [List.mem_cons, List.mem_singleton, List.not_mem_nil, or_false] at hk
        rcases hk with rfl | rfl <;> simp [Wrap.template]) y hy,
    by decide, by decide, by decide,
    errors_Is_after_wraps exampleHost codes.InvalidArgument
      { val := GoError.errorString "place id is invalid", addrs := [0] }
      "place id is invalid" 1 2 rfl
      [Wrap.coded "outer: %w", Wrap.plain "failed to parse place name, %w"]
      (fun k hk y hy => exampleHost_wraps_sample k.template
        (by
          simp only [List.mem_cons, List.mem_singleton, List.not_mem_nil, or_false] at hk
          rcases hk with rfl | rfl <;> simp [Wrap.template]) y hy)⟩

/-- C13, shallow search: for every code `c`, every error `e` and every `k ≥ 1`, with `p` the
error `New(c, e)` under `k` layers of plain `fmt.Errorf` wrapping, `Errorf` with a template whose
`%w` receives `p` returns an `Error` with code `Unknown` and no details, although a coded error
lies deeper in the chain of `p` (whenever the plain templates hand their operand to `%w`):
`Errorf` looks at the one value it unwraps and no further. -/
theorem Errorf_shallow_search (H : Host) (c : Code) (e : GoError) (ts : List String)
    (template : String) (hts : ts ≠ [])
    (hw : (H.doPrintf template [Arg.err (plainWrap H ts (New c e))]).wrappedErr =
      plainWrap H ts (New c e)) :
    Errorf H template [Arg.err (plainWrap H ts (New c e))] =
      some (GoError.grpcerrError codes.Unknown
        (fmt.Errorf H template [Arg.err (plainWrap H ts (New c e))]) []) ∧
    ((∀ t ∈ ts, ∀ y, y ≠ GoError.nil → (H.doPrintf t [Arg.err y]).wrappedErr = y) →
      (plainWrap H ts (New c e)).hasCoded = true) := by
  have hne : plainWrap H ts (New c e) ≠ GoError.nil :=
    plainWrap_ne_nil H ts (New c e) (by simp [New])
  have hu := Unwrap_fmtErrorf H template _ _ hw hne
  refine ⟨?_, fun h => ?_⟩
  · cases ts with
    | nil => exact absurd rfl hts
    | cons t ts =>
      exact Errorf_of_no_status H template _ _ _ hu (FromError_fmtErrorf H t _)
  · rw [plainWrap_hasCoded H ts (New c e) (by simp [New]) h]
    rfl

/-- Witness of C13: an `InvalidArgument` error under two plain layers, then `Errorf`. -/
theorem Errorf_shallow_search_witness :
    (["outer: %w", "failed to parse place name, %w"] : List String) ≠ [] ∧
    (exampleHost.doPrintf "ctx: %w"
      [Arg.err (plainWrap exampleHost ["outer: %w", "failed to parse place name, %w"]
        (New codes.InvalidArgument (GoError.errorString "place id is invalid")))]).wrappedErr =
      plainWrap exampleHost ["outer: %w", "failed to parse place name, %w"]
        (New codes.InvalidArgument (GoError.errorString "place id is invalid")) ∧
    (plainWrap exampleHost ["outer: %w", "failed to parse place name, %w"]
        (New codes.InvalidArgument (GoError.errorString "place id is invalid"))).hasCoded =
      true ∧
    (Errorf exampleHost "ctx: %w"
        [Arg.err (plainWrap exampleHost ["outer: %w", "failed to parse place name, %w"]
          (New codes.InvalidArgument (GoError.errorString "place id is invalid")))] =
      some (GoError.grpcerrError codes.Unknown
        (fmt.Errorf exampleHost "ctx: %w"
          [Arg.err (plainWrap exampleHost ["outer: %w", "failed to parse place name, %w"]
            (New codes.InvalidArgument (GoError.errorString "place id is invalid")))]) []) ∧
    ((∀ t ∈ ["outer: %w", "failed to parse place name, %w"], ∀ y, y ≠ GoError.nil →
        (exampleHost.doPrintf t [Arg.err y]).wrappedErr = y) →
      (plainWrap exampleHost ["outer: %w", "failed to parse place name, %w"]
        (New codes.InvalidArgument (GoError.errorString "place id is invalid"))).hasCoded =
        true)) :=
  ⟨by decide, by decide, by decide,
    Errorf_shallow_search exampleHost codes.InvalidArgument
      (GoError.errorString "place id is invalid")
      ["outer: %w", "failed to parse place name, %w"] "ctx: %w" (by decide) (by decide)⟩

theorem foldl_step_decode (H : Host) (ds : List ProtoMessage) (enc : List AnyPB)
    (acc : List ProtoMessage)
    (hall : List.Forall₂ (fun d a => H.MarshalAny d = some a) ds enc)
    (hrt : ∀ d ∈ ds, ∀ a, H.MarshalAny d = some a → H.UnmarshalAny a = Except.ok d) :
    (enc.map fun any =>
        match H.UnmarshalAny any with
        | .error e => Detail.err e
        | .ok m => Detail.msg m).foldl Errorf.step acc = acc ++ ds := by
  induction ds generalizing enc acc with
  | nil =>
    cases hall
    simp
  | cons d ds ih =>
    cases hall with
    | cons hd htl =>
      rename_i a enc
      have hdec := hrt d (List.mem_cons_self d ds) a hd
      have ih2 := ih enc (acc ++ [d]) htl (fun d2 h2 => hrt d2 (List.mem_cons_of_mem d h2))
      simp only [List.map_cons, List.foldl_cons, hdec, Errorf.step]
      rw [ih2]
      simp

theorem exampleHost_roundtrip (d : ProtoMessage) (a : AnyPB)
    (h : exampleHost.MarshalAny d = some a) : exampleHost.UnmarshalAny a = Except.ok d := by
  simp only [exampleHost] at h ⊢
  split at h
  · simp at h
  · rename_i hn
    simp only [Option.some.injEq] at h
    subst h
    simp [hn]

/-- C14, refuted as stated: under a codec that encodes a detail it cannot decode (a message
whose type is not linked in), the detail of `v = &Error{NotFound, errors.New("x"), [d]}` can be
attached to the status of `v`, whose `Details()` then holds a decoding error in its place, and
the loop of `Errorf` skips it: the details of `Errorf("ctx: %w", v)` are empty, not `[d]`. -/
theorem Errorf_details_counterexample :
    (status.New codes.NotFound "x").WithDetails unlinkedHost
      [{ typeName := "", payload := [1] }] =
      some { code := codes.NotFound, message := "x",
             details := [{ typeUrl := "", value := [1] }] } ∧
    Status.Details unlinkedHost
      (some { code := codes.NotFound, message := "x",
              details := [{ typeUrl := "", value := [1] }] }) =
      [Detail.err (GoError.errorString "any: message type is unknown")] ∧
    Errorf unlinkedHost "ctx: %w"
      [Arg.err (GoError.grpcerrError codes.NotFound (GoError.errorString "x")
        [{ typeName := "", payload := [1] }])] =
      some (GoError.grpcerrError codes.NotFound
        (GoError.wrapError "ctx: x"
          (GoError.grpcerrError codes.NotFound (GoError.errorString "x")
            [{ typeName := "", payload := [1] }])) []) := by
  decide

/-- C14, amended, details travel with the code: for every `v = &Error{c, e, ds}` whose cause `e`
has a defined `Error()` text, whose details `ds` can all be attached to its status and are each
given back by the codec when it decodes what it encoded, and every template whose `%w` receives
`v`, the result of `Errorf` has code `c` and details `ds`: the same entries in the same order.
The cause `e` is arbitrary: when it is itself an `Error` carrying details, none of them enters
the result. -/
theorem Errorf_details_travel (H : Host) (c : Code) (e : GoError) (ds : List ProtoMessage)
    (m : String) (template : String) (args : List Arg) (he : e.Error = some m)
    (hatt : (status.New c m).WithDetails H ds ≠ none)
    (hrt : ∀ d ∈ ds, ∀ a, H.MarshalAny d = some a → H.UnmarshalAny a = Except.ok d)
    (hw : (H.doPrintf template args).wrappedErr = GoError.grpcerrError c e ds) :
    Errorf H template args =
      some (GoError.grpcerrError c (fmt.Errorf H template args) ds) := by
  cases hwd : (status.New c m).WithDetails H ds with
  | none => exact absurd hwd hatt
  | some t =>
    obtain ⟨hc, _⟩ := WithDetails_code_message H _ _ _ hwd
    obtain ⟨enc, hd, hall⟩ := WithDetails_some H _ _ _ hwd
    have henc : t.details = enc := by simpa [status.New] using hd
    have hst : status.FromError H (GoError.grpcerrError c e ds) = some (some t, true) := by
      simp only [status.FromError, GRPCStatus, he, hwd]
    have hu := Unwrap_fmtErrorf H template args _ hw (by simp)
    rw [Errorf_of_status H template args _ _ hu hst]
    have hfold := foldl_step_decode H ds enc [] hall hrt
    simp only [List.nil_append] at hfold
    simp only [Status.Code, Status.Details, henc, hfold]
    rw [hc]
    rfl

/-- Witness of the amended C14: an `Error` with details `[B, C]` whose cause is an `Error`
with details `[A]`; the result of `Errorf` carries `[B, C]`. -/
theorem Errorf_details_travel_witness :
    (GoError.grpcerrError codes.InvalidArgument (GoError.errorString "x")
      [{ typeName := "A", payload := [1] }]).Error = some "x" ∧
    (status.New codes.NotFound "x").WithDetails exampleHost
      [{ typeName := "B", payload := [2] }, { typeName := "C", payload := [3] }] ≠ none ∧
    (∀ d ∈ [({ typeName := "B", payload := [2] } : ProtoMessage),
        { typeName := "C", payload := [3] }], ∀ a,
      exampleHost.MarshalAny d = some a → exampleHost.UnmarshalAny a = Except.ok d) ∧
    (exampleHost.doPrintf "ctx: %w"
      [Arg.err (GoError.grpcerrError codes.NotFound
        (GoError.grpcerrError codes.InvalidArgument (GoError.errorString "x")
          [{ typeName := "A", payload := [1] }])
        [{ typeName := "B", payload := [2] }, { typeName := "C", payload := [3] }])]).wrappedErr =
      GoError.grpcerrError codes.NotFound
        (GoError.grpcerrError codes.InvalidArgument (GoError.errorString "x")
          [{ typeName := "A", payload := [1] }])
        [{ typeName := "B", payload := [2] }, { typeName := "C", payload := [3] }] ∧
    Errorf exampleHost "ctx: %w"
      [Arg.err (GoError.grpcerrError codes.NotFound
        (GoError.grpcerrError codes.InvalidArgument (GoError.errorString "x")
          [{ typeName := "A", payload := [1] }])
        [{ typeName := "B", payload := [2] }, { typeName := "C", payload := [3] }])] =
      some (GoError.grpcerrError codes.NotFound
        (fmt.Errorf exampleHost "ctx: %w"
          [Arg.err (GoError.grpcerrError codes.NotFound
            (GoError.grpcerrError codes.InvalidArgument (GoError.errorString "x")
              [{ typeName := "A", payload := [1] }])
            [{ typeName := "B", payload := [2] }, { typeName := "C", payload := [3] }])])
        [{ typeName := "B", payload := [2] }, { typeName := "C", payload := [3] }]) :=
  ⟨rfl, by decide, fun d _ a h => exampleHost_roundtrip d a h, by decide,
    Errorf_details_travel exampleHost codes.NotFound
      (GoError.grpcerrError codes.InvalidArgument (GoError.errorString "x")
        [{ typeName := "A", payload := [1] }])
      [{ typeName := "B", payload := [2] }, { typeName := "C", payload := [3] }] "x" "ctx: %w"
      [Arg.err (GoError.grpcerrError codes.NotFound
        (GoError.grpcerrError codes.InvalidArgument (GoError.errorString "x")
          [{ typeName := "A", payload := [1] }])
        [{ typeName := "B", payload := [2] }, { typeName := "C", payload := [3] }])]
      rfl (by decide) (fun d _ a h => exampleHost_roundtrip d a h) (by decide)⟩

/-- C15, construction: for every code `c`, every error `e` (nil included) and every message `m`,
`New(c, e)` is the `Error` with code `c`, cause `e` and no details; `NewMsg(c, m)` is the `Error`
with code `c`, no details and, as cause, the leaf error `errors.New(m)` of text `m`; so
`NewMsg(c, m).Error()` is `m` and the code extracted from `NewMsg(c, m)` is `c`. -/
theorem New_NewMsg_construct (H : Host) (c : Code) (e : GoError) (m : String) :
    New c e = GoError.grpcerrError c e [] ∧
    NewMsg c m = GoError.grpcerrError c (GoError.errorString m) [] ∧
    (GoError.errorString m).Error = some m ∧
    (GoError.errorString m).Unwrap = none ∧
    NewMsg c m = New c (GoError.errorString m) ∧
    (NewMsg c m).Error = some m ∧
    extractCode H (NewMsg c m) = some c := by
  refine ⟨rfl, rfl, rfl, rfl, rfl, rfl, ?_⟩
  obtain ⟨st, h, hc, _⟩ := FromError_coded H c (GoError.errorString m) [] m rfl
  simp [extractCode, NewMsg, h, Status.Code, hc]

theorem Errorf_round (H : Host) (c : Code) (err : GoError) (text ctx : String)
    (herr : err.Error = some text)
    (hp : H.doPrintf (ctx ++ "%w") [Arg.err (GoError.grpcerrError c err [])] =
      { buf := ctx ++ text, wrappedErr := GoError.grpcerrError c err [] }) :
    Errorf H (ctx ++ "%w") [Arg.err (GoError.grpcerrError c err [])] =
      some (GoError.grpcerrError c
        (GoError.wrapError (ctx ++ text) (GoError.grpcerrError c err [])) []) := by
  have hw : (H.doPrintf (ctx ++ "%w") [Arg.err (GoError.grpcerrError c err [])]).wrappedErr =
      GoError.grpcerrError c err [] := by rw [hp]
  have hf := fmtErrorf_wrapped H _ _ _ hw (by simp)
  have hu := Unwrap_fmtErrorf H _ _ _ hw (by simp)
  have hst : status.FromError H (GoError.grpcerrError c err []) =
      some (some (status.New c text), true) := by
    simp [status.FromError, GRPCStatus_no_details H c err text herr]
  rw [Errorf_of_status H _ _ _ _ hu hst, hf, hp]
  simp [Status.Code, status.New, Status.Details]

/-- C16, refuted as stated: `e = &Error{NotFound, nil, nil}` is a non-nil error and the first
wrap `Errorf("ctx: %w", New(InvalidArgument, e))` panics, so no value with code
`InvalidArgument` comes out of the round. -/
theorem Errorf_rounds_counterexample :
    New codes.NotFound GoError.nil ≠ GoError.nil ∧
    (exampleHost.doPrintf ("ctx: " ++ "%w")
      [Arg.err (New codes.InvalidArgument (New codes.NotFound GoError.nil))]).wrappedErr =
      New codes.InvalidArgument (New codes.NotFound GoError.nil) ∧
    wraps exampleHost (["ctx: "].map fun ctx => Wrap.coded (ctx ++ "%w"))
      (New codes.InvalidArgument (New codes.NotFound GoError.nil)) = none := by
  decide

/-- C16, amended, the code is preserved by every round of composition: for every code `c`,
every error `e` whose `Error()` text `m` is defined and every list of contexts, the value
obtained from `New(c, e)` by the successive wraps `Errorf(ctx ++ "%w", prev)` is an `Error` with
code `c` (and no details), `status.FromError` recognises it with code `c`, and its text is the
contexts, the outermost first, followed by `m`.  The printer renders `ctx ++ "%w"` on an error
operand as `ctx` followed by the text of the operand, which it captures. -/
theorem Errorf_rounds_keep_code (H : Host) (c : Code) (e : GoError) (m : String)
    (he : e.Error = some m) (ctxs : List String)
    (hH : ∀ ctx ∈ ctxs, ∀ y s, y.Error = some s →
      H.doPrintf (ctx ++ "%w") [Arg.err y] = { buf := ctx ++ s, wrappedErr := y }) :
    ∃ err, wraps H (ctxs.map fun ctx => Wrap.coded (ctx ++ "%w")) (New c e) =
        some (GoError.grpcerrError c err []) ∧
      (GoError.grpcerrError c err []).Error = some (ctxs.foldr (fun ctx s => ctx ++ s) m) ∧
      ∃ st, status.FromError H (GoError.grpcerrError c err []) = some (some st, true) ∧
        Status.Code (some st) = c ∧
        Status.Message (some st) = ctxs.foldr (fun ctx s => ctx ++ s) m := by
  have key : ∃ err, wraps H (ctxs.map fun ctx => Wrap.coded (ctx ++ "%w")) (New c e) =
        some (GoError.grpcerrError c err []) ∧
      err.Error = some (ctxs.foldr (fun ctx s => ctx ++ s) m) := by
    induction ctxs with
    | nil => exact ⟨e, rfl, he⟩
    | cons ctx ctxs ih =>
      obtain ⟨err, hprev, herr⟩ := ih (fun ctx2 h2 => hH ctx2 (List.mem_cons_of_mem ctx h2))
      have hp := hH ctx (List.mem_cons_self ctx ctxs) (GoError.grpcerrError c err [])
        (ctxs.foldr (fun ctx s => ctx ++ s) m) (by simpa [GoError.Error] using herr)
      have hr := Errorf_round H c err _ ctx herr hp
      exact ⟨GoError.wrapError (ctx ++ ctxs.foldr (fun ctx s => ctx ++ s) m)
        (GoError.grpcerrError c err []),
        by simp [wraps, hprev, Wrap.apply, hr], by simp [GoError.Error]⟩
  obtain ⟨err, hw, herr⟩ := key
  obtain ⟨st, hst, hc, hm⟩ := FromError_coded H c err [] _ herr
  exact ⟨err, hw, by simpa [GoError.Error] using herr, st, hst, hc, hm⟩

/-- Witness of the amended C16: two rounds of `Errorf` around the error of the test file. -/
theorem Errorf_rounds_keep_code_witness :
    (GoError.errorString "place id is invalid").Error = some "place id is invalid" ∧
    (∀ ctx ∈ ["outer: ", "failed to parse place name, "], ∀ y s, y.Error = some s →
      exampleHost.doPrintf (ctx ++ "%w") [Arg.err y] = { buf := ctx ++ s, wrappedErr := y }) ∧
    wraps exampleHost
        (["outer: ", "failed to parse place name, "].map fun ctx => Wrap.coded (ctx ++ "%w"))
        (New codes.InvalidArgument (GoError.errorString "place id is invalid")) =
      some (GoError.grpcerrError codes.InvalidArgument
        (GoError.wrapError "outer: failed to parse place name, place id is invalid"
          (GoError.grpcerrError codes.InvalidArgument
            (GoError.wrapError "failed to parse place name, place id is invalid"
              (New codes.InvalidArgument (GoError.errorString "place id is invalid"))) []))
        []) ∧
    ∃ err, wraps exampleHost
        (["outer: ", "failed to parse place name, "].map fun ctx => Wrap.coded (ctx ++ "%w"))
        (New codes.InvalidArgument (GoError.errorString "place id is invalid")) =
        some (GoError.grpcerrError codes.InvalidArgument err []) ∧
      (GoError.grpcerrError codes.InvalidArgument err []).Error =
        some (["outer: ", "failed to parse place name, "].foldr (fun ctx s => ctx ++ s)
          "place id is invalid") ∧
      ∃ st, status.FromError exampleHost (GoError.grpcerrError codes.InvalidArgument err []) =
          some (some st, true) ∧
        Status.Code (some st) = codes.InvalidArgument ∧
        Status.Message (some st) =
          ["outer: ", "failed to parse place name, "].foldr (fun ctx s => ctx ++ s)
            "place id is invalid" :=
  ⟨rfl,
    fun ctx hctx y s hy => exampleHost_prints ctx y s
      (by
        simp only [List.mem_cons, List.mem_singleton, List.not_mem_nil, or_false] at hctx
        rcases hctx with rfl | rfl <;> decide) hy,
    by decide,
    Errorf_rounds_keep_code exampleHost codes.InvalidArgument
      (GoError.errorString "place id is invalid") "place id is invalid" rfl
      ["outer: ", "failed to parse place name, "]
      (fun ctx hctx y s hy => exampleHost_prints ctx y s
        (by
          simp only [List.mem_cons, List.mem_singleton, List.not_mem_nil, or_false] at hctx
          rcases hctx with rfl | rfl <;> decide) hy)⟩

/-- C17, the code is read only through the `%w` cause: for every code `c`, every error `e` and
every template in which no `%w` verb captures the operand (for example "ctx: %v"),
`Errorf(template, New(c, e))` returns an `Error` with code `Unknown` and no details around the
formatted error, which has no `Unwrap`; the code extracted from the result is `Unknown`, although
a coded error was the argument. -/
theorem Errorf_reads_only_wrapped (H : Host) (c : Code) (e : GoError) (template : String)
    (hw : (H.doPrintf template [Arg.err (New c e)]).wrappedErr = GoError.nil) :
    Errorf H template [Arg.err (New c e)] =
      some (GoError.grpcerrError codes.Unknown
        (GoError.errorString (H.doPrintf template [Arg.err (New c e)]).buf) []) ∧
    (fmt.Errorf H template [Arg.err (New c e)]).Unwrap = none ∧
    extractCode H (GoError.grpcerrError codes.Unknown
        (GoError.errorString (H.doPrintf template [Arg.err (New c e)]).buf) []) =
      some codes.Unknown := by
  have hf := fmtErrorf_plain H template [Arg.err (New c e)] hw
  have hu : (fmt.Errorf H template [Arg.err (New c e)]).Unwrap = none := by
    simp [hf, GoError.Unwrap]
  refine ⟨?_, hu, ?_⟩
  · rw [Errorf_of_unwrap_none H template _ hu, hf]
  · have hst := FromError_unknown_wrap H
      (GoError.errorString (H.doPrintf template [Arg.err (New c e)]).buf) _ rfl
    simp [extractCode, hst, Status.Code, status.New]

/-- Witness of C17: the template "ctx: %v" applied to an `InvalidArgument` error. -/
theorem Errorf_reads_only_wrapped_witness :
    (exampleHost.doPrintf "ctx: %v"
      [Arg.err (New codes.InvalidArgument (GoError.errorString "place id is invalid"))]).wrappedErr
      = GoError.nil ∧
    Errorf exampleHost "ctx: %v"
        [Arg.err (New codes.InvalidArgument (GoError.errorString "place id is invalid"))] =
      some (GoError.grpcerrError codes.Unknown
        (GoError.errorString "ctx: place id is invalid") []) ∧
    (Errorf exampleHost "ctx: %v"
        [Arg.err (New codes.InvalidArgument (GoError.errorString "place id is invalid"))] =
      some (GoError.grpcerrError codes.Unknown
        (GoError.errorString (exampleHost.doPrintf "ctx: %v"
          [Arg.err (New codes.InvalidArgument
            (GoError.errorString "place id is invalid"))]).buf) []) ∧
    (fmt.Errorf exampleHost "ctx: %v"
        [Arg.err (New codes.InvalidArgument
          (GoError.errorString "place id is invalid"))]).Unwrap = none ∧
    extractCode exampleHost (GoError.grpcerrError codes.Unknown
        (GoError.errorString (exampleHost.doPrintf "ctx: %v"
          [Arg.err (New codes.InvalidArgument
            (GoError.errorString "place id is invalid"))]).buf) []) =
      some codes.Unknown) :=
  ⟨by decide, by decide,
    Errorf_reads_only_wrapped exampleHost codes.InvalidArgument
      (GoError.errorString "place id is invalid") "ctx: %v" (by decide)⟩

theorem GRPCStatus_defined_iff (H : Host) (c : Code) (e : GoError) (ds : List ProtoMessage) :
    (GRPCStatus H c e ds).isSome = (e.Error).isSome := by
  cases he : e.Error with
  | none => simp [GRPCStatus, he]
  | some m =>
    obtain ⟨st, h, _, _⟩ := GRPCStatus_some H c e ds m he
    simp [h]

/-- C18, refuted as stated: `New(NotFound, nil)` is a value that `New` accepts, and on the
argument list made of it the template "%w" makes `Errorf` panic (while the status of the
unwrapped value is computed, `GRPCStatus` calls `e.Err.Error()` on the nil `Err`): `Errorf`
returns no error at all, so it is not true that it returns for every argument list. -/
theorem Errorf_total_counterexample :
    New codes.NotFound GoError.nil = GoError.grpcerrError codes.NotFound GoError.nil [] ∧
    (fmt.Errorf exampleHost "%w" [Arg.err (New codes.NotFound GoError.nil)]).Unwrap =
      some (New codes.NotFound GoError.nil) ∧
    status.FromError exampleHost (New codes.NotFound GoError.nil) = none ∧
    Errorf exampleHost "%w" [Arg.err (New codes.NotFound GoError.nil)] = none ∧
    ¬ ∃ r, Errorf exampleHost "%w" [Arg.err (New codes.NotFound GoError.nil)] = some r := by
  have hnone : Errorf exampleHost "%w" [Arg.err (New codes.NotFound GoError.nil)] = none := by
    decide
  refine ⟨rfl, by decide, by decide, hnone, ?_⟩
  rintro ⟨r, hr⟩
  rw [hnone] at hr
  cases hr

/-- C18, amended: for every template and every argument list whose `%w` operand, if there is
one, has a defined `Error()` text (a nil operand is never captured), `Errorf` returns a non-nil
`Error` whose cause `Err` is the formatted error, itself non-nil, so that `Error()`, `Unwrap()`
and `GRPCStatus()` are defined on the result.  By contrast `New(c, nil)` is accepted; its
`Error()` and `GRPCStatus()` are undefined while its `Unwrap()` is `nil`; in general `Error()` and
`GRPCStatus()` of `&Error{c, e, ds}` are defined exactly when `e.Error()` is, and `Unwrap()`
always. -/
theorem Errorf_result_defined (H : Host) (template : String) (args : List Arg) (c : Code)
    (hv : (H.doPrintf template args).wrappedErr = GoError.nil ∨
      ((H.doPrintf template args).wrappedErr.Error).isSome) :
    (∃ code details,
      Errorf H template args =
        some (GoError.grpcerrError code (fmt.Errorf H template args) details) ∧
      fmt.Errorf H template args ≠ GoError.nil ∧
      (GoError.grpcerrError code (fmt.Errorf H template args) details).Error =
        some (H.doPrintf template args).buf ∧
      (GoError.grpcerrError code (fmt.Errorf H template args) details).Unwrap =
        some (fmt.Errorf H template args) ∧
      ∃ st, GRPCStatus H code (fmt.Errorf H template args) details = some st) ∧
    New c GoError.nil = GoError.grpcerrError c GoError.nil [] ∧
    (New c GoError.nil).Error = none ∧
    GRPCStatus H c GoError.nil [] = none ∧
    (New c GoError.nil).Unwrap = some GoError.nil ∧
    ∀ (e : GoError) (ds : List ProtoMessage),
      ((GoError.grpcerrError c e ds).Error).isSome = (e.Error).isSome ∧
      (GRPCStatus H c e ds).isSome = (e.Error).isSome ∧
      (GoError.grpcerrError c e ds).Unwrap = some e := by
  have hdef : Errorf H template args ≠ none := by
    rcases fmtErrorf_shape H template args with h | ⟨w, hne, hw, h⟩
    · rw [Errorf_of_unwrap_none H template args (by simp [h, GoError.Unwrap])]
      simp
    · have hs : (w.Error).isSome := by
        rcases hv with hv | hv
        · exact absurd (hw ▸ hv) hne
        · exact hw ▸ hv
      obtain ⟨r, hr⟩ := FromError_defined H w hs
      obtain ⟨st, ok⟩ := r
      have hu : (fmt.Errorf H template args).Unwrap = some w := by simp [h, GoError.Unwrap]
      cases ok
      · rw [Errorf_of_no_status H template args w st hu hr]
        simp
      · rw [Errorf_of_status H template args w st hu hr]
        simp
  refine ⟨?_, rfl, rfl, rfl, rfl, fun e ds => ⟨rfl, GRPCStatus_defined_iff H c e ds, rfl⟩⟩
  rcases Errorf_shape H template args with h | ⟨code, details, h⟩
  · exact absurd h hdef
  · obtain ⟨st, hst, _, _⟩ := GRPCStatus_some H code (fmt.Errorf H template args) details _
      (fmtErrorf_text H template args)
    exact ⟨code, details, h, fmtErrorf_ne_nil H template args,
      by simp [GoError.Error, fmtErrorf_text], rfl, st, hst⟩

/-- Witness of the amended C18: the template "ctx: %w" applied to a nil error. -/
theorem Errorf_result_defined_witness :
    ((exampleHost.doPrintf "ctx: %w" [Arg.err GoError.nil]).wrappedErr = GoError.nil ∨
      ((exampleHost.doPrintf "ctx: %w" [Arg.err GoError.nil]).wrappedErr.Error).isSome) ∧
    Errorf exampleHost "ctx: %w" [Arg.err GoError.nil] =
      some (GoError.grpcerrError codes.Unknown (GoError.errorString "ctx: %!w(<nil>)") []) ∧
    ((∃ code details,
      Errorf exampleHost "ctx: %w" [Arg.err GoError.nil] =
        some (GoError.grpcerrError code
          (fmt.Errorf exampleHost "ctx: %w" [Arg.err GoError.nil]) details) ∧
      fmt.Errorf exampleHost "ctx: %w" [Arg.err GoError.nil] ≠ GoError.nil ∧
      (GoError.grpcerrError code
          (fmt.Errorf exampleHost "ctx: %w" [Arg.err GoError.nil]) details).Error =
        some (exampleHost.doPrintf "ctx: %w" [Arg.err GoError.nil]).buf ∧
      (GoError.grpcerrError code
          (fmt.Errorf exampleHost "ctx: %w" [Arg.err GoError.nil]) details).Unwrap =
        some (fmt.Errorf exampleHost "ctx: %w" [Arg.err GoError.nil]) ∧
      ∃ st, GRPCStatus exampleHost code
          (fmt.Errorf exampleHost "ctx: %w" [Arg.err GoError.nil]) details = some st) ∧
    New codes.NotFound GoError.nil = GoError.grpcerrError codes.NotFound GoError.nil [] ∧
    (New codes.NotFound GoError.nil).Error = none ∧
    GRPCStatus exampleHost codes.NotFound GoError.nil [] = none ∧
    (New codes.NotFound GoError.nil).Unwrap = some GoError.nil ∧
    ∀ (e : GoError) (ds : List ProtoMessage),
      ((GoError.grpcerrError codes.NotFound e ds).Error).isSome = (e.Error).isSome ∧
      (GRPCStatus exampleHost codes.NotFound e ds).isSome = (e.Error).isSome ∧
      (GoError.grpcerrError codes.NotFound e ds).Unwrap = some e) :=
  ⟨by decide, by decide,
    Errorf_result_defined exampleHost "ctx: %w" [Arg.err GoError.nil] codes.NotFound
      (by decide)⟩

end grpcerr
